import Mathlib

/-!
Verification development for the prompt-eng chatbot-client layer
(`models.py` and `clients.py`).

The Python code is shallowly embedded:
* Python numbers that may be `int` or `float` become the sum type `PyNum`
  (rationals stand in for floats; no claim here depends on rounding).
* Python truthiness of an optional numeric field (`if self.temperature:`)
  becomes `optTruthy`.
* JSON-like values (request bodies, response bodies) become `PyVal`;
  `dict` is an insertion-ordered association list, exactly as CPython
  dictionaries behave under item assignment and `update`.
* Code that can raise becomes `Except PyError`; a raised exception is an
  `Except.error` carrying the exception kind.
* `datetime.now(timezone.utc)` is modelled by explicit clock readings:
  a chat call starts at time `t0` (seconds), option translation advances
  the clock by `dParse`, the network call by `dNet`, so the second
  reading is `t0 + dParse + dNet`.
* The network itself is a parameter: `netResult : Except PyError PyVal`
  is the outcome of `requests.post` + `raise_for_status()` + `.json()`.
-/

namespace PromptEng

/-- A Python number: either an `int` or a `float` (modelled as a rational). -/
inductive PyNum where
  | int (n : ℤ)
  | float (q : ℚ)
deriving DecidableEq

/-- Python truthiness of a number: zero is falsy, everything else truthy. -/
def PyNum.truthy : PyNum → Bool
  | .int n => n ≠ 0
  | .float q => q ≠ 0

/-- Python truthiness of an optional numeric field: `None` and zero are falsy. -/
def optTruthy : Option PyNum → Bool
  | none => false
  | some v => v.truthy

/-- The exception kinds raised by the embedded code. -/
inductive PyError where
  | typeError (msg : String)
  | valueError (msg : String)
  | keyError (key : String)
  | attributeError (msg : String)
deriving DecidableEq

/-- `models.AIModel`: name and parameter size of a listed model. -/
structure AIModel where
  name : String
  parameter_size : String
deriving DecidableEq

/-- `models.ModelOptions`: every generation option defaults to `None`.
A supplied value is a `PyNum`, so the `isinstance` checks of `validate`
are the match on the `PyNum` constructor. -/
structure ModelOptions where
  max_tokens : Option PyNum := none
  temperature : Option PyNum := none
  top_k : Option PyNum := none
  top_p : Option PyNum := none
  context_window_size : Option PyNum := none
  seed : Option PyNum := none
deriving DecidableEq

/-- One block of `ModelOptions.validate` for a float-typed field with
range [0, 1] (`temperature`, `top_p`): skipped when the value is falsy,
`TypeError` when the truthy value is not a float, `ValueError` when it is
a float outside the range. -/
def checkFloatField (label : String) (v : Option PyNum) : Except PyError Unit :=
  if optTruthy v then
    match v with
    | some (PyNum.float q) =>
      if q < 0 ∨ q > 1 then
        Except.error (PyError.valueError (label ++ " must be between 0 and 1"))
      else Except.ok ()
    | _ => Except.error (PyError.typeError (label ++ " must be of type float"))
  else Except.ok ()

/-- One block of `ModelOptions.validate` for an int-typed field with no
range check (`max_tokens`, `context_window_size`, `seed`). -/
def checkIntField (label : String) (v : Option PyNum) : Except PyError Unit :=
  if optTruthy v then
    match v with
    | some (PyNum.int _) => Except.ok ()
    | _ => Except.error (PyError.typeError (label ++ " must be of type int"))
  else Except.ok ()

/-- The `top_k` block of `ModelOptions.validate`: int-typed with
range [0, 100]. -/
def checkIntRangeField (label : String) (v : Option PyNum) : Except PyError Unit :=
  if optTruthy v then
    match v with
    | some (PyNum.int n) =>
      if n < 0 ∨ n > 100 then
        Except.error (PyError.valueError (label ++ " must be between 0 and 100"))
      else Except.ok ()
    | _ => Except.error (PyError.typeError (label ++ " must be of type int"))
  else Except.ok ()

/-- `ModelOptions.validate`, with the six blocks in source order:
temperature, max_tokens, top_k, top_p, context_window_size, seed.
Each block runs only when the field is truthy (the source guards each
block with `if self.field:`), so `None` and zero values are never
checked. -/
def ModelOptions.validate (o : ModelOptions) : Except PyError Unit := do
  checkFloatField "temperature" o.temperature
  checkIntField "max_tokens" o.max_tokens
  checkIntRangeField "top_k" o.top_k
  checkFloatField "top_p" o.top_p
  checkIntField "context_window_size" o.context_window_size
  checkIntField "seed" o.seed

/-- A JSON-like Python value, as built for request bodies and returned by
`response.json()`. A dict is the insertion-ordered association list of its
items. -/
inductive PyVal where
  | str (s : String)
  | num (n : PyNum)
  | boolean (b : Bool)
  | list (xs : List PyVal)
  | dict (kvs : List (String × PyVal))
  | pynone

/-- Lookup in a dict item list: the value of the first binding of `k`.
(A dict built only by item assignment never holds a key twice.) -/
def lookupKey (kvs : List (String × PyVal)) (k : String) : Option PyVal :=
  (kvs.find? (fun p => p.1 == k)).map Prod.snd

/-- Item assignment `d[k] = v` on a dict item list: overwrite the existing
binding in place, else append a new binding at the end, as CPython does. -/
def setKey : List (String × PyVal) → String → PyVal → List (String × PyVal)
  | [], k, v => [(k, v)]
  | (k0, v0) :: rest, k, v =>
    if k0 == k then (k0, v) :: rest else (k0, v0) :: setKey rest k v

/-- `base.update(other)`: assign every item of `other` into `base`,
in order. -/
def dictUpdate (base other : List (String × PyVal)) : List (String × PyVal) :=
  other.foldl (fun acc kv => setKey acc kv.1 kv.2) base

/-- Python subscription `v[k]` with a string key: `KeyError` when a dict
lacks the key, `TypeError` when the value is not a dict. -/
def pyGetItem (v : PyVal) (k : String) : Except PyError PyVal :=
  match v with
  | .dict kvs =>
    match lookupKey kvs k with
    | some x => Except.ok x
    | none => Except.error (PyError.keyError k)
  | _ => Except.error (PyError.typeError "object is not subscriptable")

/-- Python `int()` applied to a float: truncation toward zero. -/
def pyInt (q : ℚ) : ℤ := q.num.tdiv q.den

/-- One conditional insertion of `ChatbotClient._parse_options`
(`if options.field: implemented_opts[k] = options.field`): a singleton
binding when the field is truthy, nothing otherwise. -/
def guardOpt (k : String) (v : Option PyNum) : List (String × PyVal) :=
  if optTruthy v then
    match v with
    | some n => [(k, PyVal.num n)]
    | none => []
  else []

/-- The value a truthy option field contributes, `none` when the field is
falsy (absent or zero) and therefore skipped by the translation. -/
def truthyVal (v : Option PyNum) : Option PyVal :=
  if optTruthy v then
    match v with
    | some n => some (PyVal.num n)
    | none => none
  else none

/-- `clients.OpenWebUIClient`: host, bearer credential, and the mutable
system prompt, initialised to the empty string by `__init__`. -/
structure OpenWebUIClient where
  host : String
  bearer : String
  systemPrompt : String := ""
deriving DecidableEq

/-- `clients.OllamaClient`: host and the mutable system prompt,
initialised to the empty string by `__init__`. -/
structure OllamaClient where
  host : String
  systemPrompt : String := ""
deriving DecidableEq

/-- `ChatbotClient.set_system_prompt`: stores the prompt only when it is
truthy (non-empty); an empty prompt leaves the state unchanged. -/
def OpenWebUIClient.set_system_prompt (c : OpenWebUIClient) (prompt : String) :
    OpenWebUIClient :=
  if prompt ≠ "" then { c with systemPrompt := prompt } else c

/-- `OllamaClient.set_system_prompt`: the override in the source has the
same body as the base-class method. -/
def OllamaClient.set_system_prompt (c : OllamaClient) (prompt : String) :
    OllamaClient :=
  if prompt ≠ "" then { c with systemPrompt := prompt } else c

/-- `ChatbotClient._generate_system_message`: the system-role message when
a prompt is stored, the empty dict otherwise. -/
def generateSystemMessage (sys : String) : PyVal :=
  if sys ≠ "" then
    PyVal.dict [("role", PyVal.str "system"), ("content", PyVal.str sys)]
  else PyVal.dict []

/-- The single user-turn message both clients place in `messages`. -/
def userMessage (message : String) : PyVal :=
  PyVal.dict [("role", PyVal.str "user"), ("content", PyVal.str message)]

/-- `OpenWebUIClient._parse_options`: validate, then insert the truthy
fields flat, in source order (num_ctx, max_tokens, top_k, top_p,
temperature, seed); concatenation of the guarded singletons is the
insertion order of the resulting dict. -/
def gatewayOpts (o : ModelOptions) : List (String × PyVal) :=
  guardOpt "num_ctx" o.context_window_size ++
  (guardOpt "max_tokens" o.max_tokens ++
  (guardOpt "top_k" o.top_k ++
  (guardOpt "top_p" o.top_p ++
  (guardOpt "temperature" o.temperature ++
  guardOpt "seed" o.seed))))

def OpenWebUIClient.parseOptions (o : ModelOptions) :
    Except PyError (List (String × PyVal)) := do
  o.validate
  pure (gatewayOpts o)

/-- `OllamaClient._parse_options`: validate, build the nested dict in
source order (num_predict, temperature, top_p, seed, top_k, num_ctx), and
wrap it under an "options" key only when it is non-empty. -/
def ollamaNested (o : ModelOptions) : List (String × PyVal) :=
  guardOpt "num_predict" o.max_tokens ++
  (guardOpt "temperature" o.temperature ++
  (guardOpt "top_p" o.top_p ++
  (guardOpt "seed" o.seed ++
  (guardOpt "top_k" o.top_k ++
  guardOpt "num_ctx" o.context_window_size))))

def OllamaClient.parseOptions (o : ModelOptions) :
    Except PyError (List (String × PyVal)) := do
  o.validate
  if (ollamaNested o).isEmpty then pure []
  else pure [("options", PyVal.dict (ollamaNested o))]

/-- The two base items of the gateway `post_body` literal: the model name
and the single-element user message list. -/
def gatewayBaseBody (message modelName : String) : List (String × PyVal) :=
  [("model", PyVal.str modelName),
   ("messages", PyVal.list [userMessage message])]

/-- The base items of the local-runner `post_body` literal: model, the
user message list, and `stream: false`. -/
def ollamaBaseBody (message modelName : String) : List (String × PyVal) :=
  [("model", PyVal.str modelName),
   ("messages", PyVal.list [userMessage message]),
   ("stream", PyVal.boolean false)]

/-- The system-prompt statement shared verbatim by both `_chat` methods:
`post_body["messages"] = [self._generate_system_message()] + post_body["messages"]`,
executed only when a system prompt is stored. -/
def bodyWithSystem (sys : String) (body : List (String × PyVal)) :
    List (String × PyVal) :=
  if sys ≠ "" then
    setKey body "messages"
      (PyVal.list (generateSystemMessage sys ::
        (match lookupKey body "messages" with
         | some (PyVal.list ms) => ms
         | _ => [])))
  else body

/-- The JSON body `OpenWebUIClient._chat` posts: base body with model and
the user message, `update`d with the translated options (flat), then the
system message prepended to `messages` when a system prompt is stored.
Everything after this point in `_chat` is the network call itself. -/
def OpenWebUIClient.postBody (c : OpenWebUIClient) (message modelName : String)
    (options : Option ModelOptions) : Except PyError (List (String × PyVal)) := do
  let opts ← match options with
    | some o => OpenWebUIClient.parseOptions o
    | none => pure []
  pure (bodyWithSystem c.systemPrompt
    (dictUpdate (gatewayBaseBody message modelName) opts))

/-- The JSON body `OllamaClient._chat` posts: like the gateway body but
with `stream: false` and options nested under an "options" key; the
`breakpoint()` leftover in the source is a no-op here. -/
def OllamaClient.postBody (c : OllamaClient) (message modelName : String)
    (options : Option ModelOptions) : Except PyError (List (String × PyVal)) := do
  let opts ← match options with
    | some o => OllamaClient.parseOptions o
    | none => pure []
  pure (bodyWithSystem c.systemPrompt
    (dictUpdate (ollamaBaseBody message modelName) opts))

/-- The body of the `try` in `OpenWebUIClient.chat_completion`:
`choice["message"]["content"]`. -/
def extractChoiceContent (choice : PyVal) : Except PyError PyVal := do
  let msg ← pyGetItem choice "message"
  pyGetItem msg "content"

/-- The `str(exc)` rendering used for the sentinel reply; we model the
description as the exception kind applied to its payload (CPython would
also quote a KeyError key, which no claim depends on). -/
def pyErrStr : PyError → String
  | .typeError m => m
  | .valueError m => m
  | .keyError k => "KeyError: " ++ k
  | .attributeError m => m

/-- `OpenWebUIClient.chat_completion`. The first clock reading is `t0`
(seconds); `_chat` then translates the options (raising before the network
call when validation fails, which also leaves `netResult` unconsumed) and
performs the network call, whose outcome is `netResult`; the second clock
reading is `t0 + dParse + dNet`. The source then loops over
`response_json["choices"]`: an empty list falls out of the loop and the
function returns Python `None`, modelled as `Except.ok none`; on the first
choice the `try` returns the elapsed time and content, and any extraction
failure is caught and turned into the `(-1, str(exc))` sentinel. -/
def OpenWebUIClient.chat_completion (c : OpenWebUIClient) (message : String)
    (model : AIModel) (options : Option ModelOptions)
    (t0 dParse dNet : ℚ) (netResult : Except PyError PyVal) :
    Except PyError (Option (ℤ × PyVal)) := do
  let _body ← c.postBody message model.name options
  let response ← netResult
  let elapsedMs := pyInt (((t0 + dParse + dNet) - t0) * 1000)
  let choices ← pyGetItem response "choices"
  match choices with
  | PyVal.list [] => pure none
  | PyVal.list (choice :: _) =>
    match extractChoiceContent choice with
    | Except.ok content => pure (some (elapsedMs, content))
    | Except.error exc => pure (some (-1, PyVal.str (pyErrStr exc)))
  | _ => Except.error (PyError.typeError "object is not iterable")

/-- `OllamaClient.chat_completion`: same clock model, but the elapsed
value is returned as the raw float of milliseconds (the source has no
`int(...)` cast here), and `response["message"]["content"]` is extracted
with no `try`, so a malformed shape raises. -/
def OllamaClient.chat_completion (c : OllamaClient) (message : String)
    (model : AIModel) (options : Option ModelOptions)
    (t0 dParse dNet : ℚ) (netResult : Except PyError PyVal) :
    Except PyError (ℚ × PyVal) := do
  let _body ← c.postBody message model.name options
  let response ← netResult
  let timeTakenMs := ((t0 + dParse + dNet) - t0) * 1000
  let msg ← pyGetItem response "message"
  let content ← pyGetItem msg "content"
  pure (timeTakenMs, content)

/-- The field reads inside the loop of `OpenWebUIClient.get_models`, in
evaluation order: `model_info["name"]`, then
`model_info["ollama"]["details"]["parameter_size"]`. The `AIModel` fields
are strings in the source, so the embedding requires string leaves. -/
def extractGatewayModel (entry : PyVal) : Except PyError AIModel := do
  let nameV ← pyGetItem entry "name"
  let ollamaV ← pyGetItem entry "ollama"
  let detailsV ← pyGetItem ollamaV "details"
  let sizeV ← pyGetItem detailsV "parameter_size"
  match nameV, sizeV with
  | PyVal.str n, PyVal.str p => pure { name := n, parameter_size := p }
  | _, _ => Except.error (PyError.typeError "expected str fields")

/-- The accumulation loop of `OpenWebUIClient.get_models` over the entries
of `data["data"]`: the first bad entry raises and the partial list built
so far is discarded. -/
def gatewayModelsFromEntries : List PyVal → Except PyError (List AIModel)
  | [] => Except.ok []
  | e :: rest => do
    let m ← extractGatewayModel e
    let ms ← gatewayModelsFromEntries rest
    pure (m :: ms)

/-- `OpenWebUIClient.get_models`, applied to the already-decoded response
body of `_get_models`. -/
def OpenWebUIClient.get_models (data : PyVal) : Except PyError (List AIModel) := do
  let lst ← pyGetItem data "data"
  match lst with
  | PyVal.list entries => gatewayModelsFromEntries entries
  | _ => Except.error (PyError.typeError "object is not iterable")

/-- A well-formed gateway model-listing entry, shaped as in the response
of the gateway `/api/models` endpoint. -/
def mkGatewayEntry (n p : String) : PyVal :=
  PyVal.dict [("name", PyVal.str n),
              ("ollama", PyVal.dict [("details",
                 PyVal.dict [("parameter_size", PyVal.str p)])])]

/-- Python `s.strip("B")`: remove every leading and trailing `B`
character. -/
def stripB (s : String) : String :=
  let cs := s.toList.dropWhile (fun c => c == 'B')
  String.mk ((cs.reverse.dropWhile (fun c => c == 'B')).reverse)

/-- Digit run to a natural number. -/
def digitsToNat (cs : List Char) : ℕ :=
  cs.foldl (fun a c => a * 10 + (c.toNat - 48)) 0

/-- The decimal-numeral fragment of Python `float(s)` (the source only
feeds it parameter-size strings such as "7" or "1.5"): an optional
fraction dot with digits around it, at least one digit in total; any
other string fails, as `float` raises `ValueError` there. -/
def parseDecimal (s : String) : Option ℚ :=
  let cs := s.toList
  let ipart := cs.takeWhile (fun c => c ≠ '.')
  match cs.dropWhile (fun c => c ≠ '.') with
  | [] =>
    if !ipart.isEmpty && ipart.all Char.isDigit then some (digitsToNat ipart : ℚ)
    else none
  | _ :: frac =>
    if frac.contains '.' then none
    else if (!ipart.isEmpty || !frac.isEmpty) && ipart.all Char.isDigit &&
        frac.all Char.isDigit then
      some ((digitsToNat ipart : ℚ) + (digitsToNat frac : ℚ) / ((10 : ℚ) ^ frac.length))
    else none

/-- `float(model.parameter_size.strip("B"))`: `ValueError` when the
stripped string is not a numeral. -/
def parseSize (m : AIModel) : Except PyError ℚ :=
  match parseDecimal (stripB m.parameter_size) with
  | some q => Except.ok q
  | none => Except.error (PyError.valueError "could not convert string to float")

/-- The loop of `_get_smallest_model`: track the smallest size seen and
the model achieving it, with a strict comparison, so the first model of a
tied size wins. -/
def getSmallestAux : List AIModel → ℚ → Option AIModel → Except PyError (Option AIModel)
  | [], _, chosen => Except.ok chosen
  | m :: rest, smallest, chosen => do
    let size ← parseSize m
    if size < smallest then getSmallestAux rest size (some m)
    else getSmallestAux rest smallest chosen

/-- `_get_smallest_model`: the loop starts from the sentinel size 9999999
and no chosen model, so an empty inventory yields Python `None`. -/
def getSmallestModel (models : List AIModel) : Except PyError (Option AIModel) :=
  getSmallestAux models 9999999 none

/-- The model-selection tail of `bootstrap_client_and_model`, after
`get_models` has produced `models` (configuration loading, the factory
and the listing call itself are network-facing and stay outside the
embedding). Returns the picked model (Python `None` possible) and whether
the not-found warning was emitted. The warning f-string reads
`fallback_model.name`, which raises `AttributeError` when the fallback is
`None`. -/
def bootstrapPick (models : List AIModel) (preferredModel : String) :
    Except PyError (Option AIModel × Bool) := do
  let fallbackModel ← getSmallestModel models
  match models.find? (fun m => preferredModel == m.name) with
  | some m => pure (some m, false)
  | none =>
    if preferredModel ≠ "" then
      match fallbackModel with
      | none => Except.error (PyError.attributeError "NoneType object has no attribute name")
      | some fb => pure (some fb, true)
    else
      pure (fallbackModel, false)

/-! ## Helper lemmas -/

theorem except_seq_ok_iff {ε : Type} (x y : Except ε Unit) :
    (Bind.bind x (fun _ => y)) = Except.ok () ↔
      x = Except.ok () ∧ y = Except.ok () := by
  cases x with
  | ok a => cases a; simp [Bind.bind, Except.bind, Pure.pure, Except.pure]
  | error e => simp [Bind.bind, Except.bind, Pure.pure, Except.pure]

theorem checkFloatField_ok_iff (label : String) (v : Option PyNum) :
    checkFloatField label v = Except.ok () ↔
      (optTruthy v = true → ∃ q : ℚ, v = some (PyNum.float q) ∧ 0 ≤ q ∧ q ≤ 1) := by
  rcases v with _ | n
  · simp [checkFloatField, optTruthy]
  · rcases n with n | q
    · by_cases h : n = 0 <;>
        simp [checkFloatField, optTruthy, PyNum.truthy, h]
    · by_cases h : q = 0
      · simp [checkFloatField, optTruthy, PyNum.truthy, h]
      · by_cases h2 : q < 0 ∨ q > 1
        · simp only [checkFloatField, optTruthy, PyNum.truthy, h, decide_not,
            ne_eq, not_false_iff, if_pos, if_true, h2]
          constructor
          · intro hbad; exact absurd hbad (by simp)
          · intro hr
            rcases hr (by simp [optTruthy, PyNum.truthy, h]) with ⟨q2, hq2, hq0, hq1⟩
            simp only [Option.some.injEq, PyNum.float.injEq] at hq2
            subst hq2
            rcases h2 with h2 | h2 <;> linarith
        · push_neg at h2
          simp [checkFloatField, optTruthy, PyNum.truthy, h, not_or, h2,
            not_lt.mpr h2.1, not_lt.mpr h2.2]

theorem checkIntField_ok_iff (label : String) (v : Option PyNum) :
    checkIntField label v = Except.ok () ↔
      (optTruthy v = true → ∃ n : ℤ, v = some (PyNum.int n)) := by
  rcases v with _ | n
  · simp [checkIntField, optTruthy]
  · rcases n with n | q
    · simp [checkIntField, optTruthy, PyNum.truthy]
    · by_cases h : q = 0 <;>
        simp [checkIntField, optTruthy, PyNum.truthy, h]

theorem checkIntRangeField_ok_iff (label : String) (v : Option PyNum) :
    checkIntRangeField label v = Except.ok () ↔
      (optTruthy v = true → ∃ n : ℤ, v = some (PyNum.int n) ∧ 0 ≤ n ∧ n ≤ 100) := by
  rcases v with _ | n
  · simp [checkIntRangeField, optTruthy]
  · rcases n with n | q
    · by_cases h : n = 0
      · simp [checkIntRangeField, optTruthy, PyNum.truthy, h]
      · by_cases h2 : n < 0 ∨ n > 100
        · simp only [checkIntRangeField, optTruthy, PyNum.truthy, h, decide_not,
            ne_eq, not_false_iff, if_pos, if_true, h2]
          constructor
          · intro hbad; exact absurd hbad (by simp)
          · intro hr
            rcases hr (by simp [optTruthy, PyNum.truthy, h]) with ⟨n2, hn2, hn0, hn1⟩
            simp only [Option.some.injEq, PyNum.int.injEq] at hn2
            subst hn2
            omega
        · push_neg at h2
          simp [checkIntRangeField, optTruthy, PyNum.truthy, h, not_or,
            not_lt.mpr h2.1, not_lt.mpr h2.2]
          exact ⟨h2.1, h2.2⟩
    · by_cases h : q = 0 <;>
        simp [checkIntRangeField, optTruthy, PyNum.truthy, h]

/-- Characterisation of a passing validation: every truthy field carries a
value of the declared type and range; falsy fields are never checked. -/
theorem validate_ok_iff (o : ModelOptions) :
    o.validate = Except.ok () ↔
      ((optTruthy o.temperature = true →
          ∃ q : ℚ, o.temperature = some (PyNum.float q) ∧ 0 ≤ q ∧ q ≤ 1) ∧
       (optTruthy o.max_tokens = true →
          ∃ n : ℤ, o.max_tokens = some (PyNum.int n)) ∧
       (optTruthy o.top_k = true →
          ∃ n : ℤ, o.top_k = some (PyNum.int n) ∧ 0 ≤ n ∧ n ≤ 100) ∧
       (optTruthy o.top_p = true →
          ∃ q : ℚ, o.top_p = some (PyNum.float q) ∧ 0 ≤ q ∧ q ≤ 1) ∧
       (optTruthy o.context_window_size = true →
          ∃ n : ℤ, o.context_window_size = some (PyNum.int n)) ∧
       (optTruthy o.seed = true →
          ∃ n : ℤ, o.seed = some (PyNum.int n))) := by
  unfold ModelOptions.validate
  rw [show (do
        checkFloatField "temperature" o.temperature
        checkIntField "max_tokens" o.max_tokens
        checkIntRangeField "top_k" o.top_k
        checkFloatField "top_p" o.top_p
        checkIntField "context_window_size" o.context_window_size
        checkIntField "seed" o.seed : Except PyError Unit) =
      Bind.bind (checkFloatField "temperature" o.temperature) (fun _ =>
        Bind.bind (checkIntField "max_tokens" o.max_tokens) (fun _ =>
          Bind.bind (checkIntRangeField "top_k" o.top_k) (fun _ =>
            Bind.bind (checkFloatField "top_p" o.top_p) (fun _ =>
              Bind.bind (checkIntField "context_window_size" o.context_window_size) (fun _ =>
                checkIntField "seed" o.seed))))) from rfl]
  rw [except_seq_ok_iff, except_seq_ok_iff, except_seq_ok_iff, except_seq_ok_iff,
      except_seq_ok_iff]
  rw [checkFloatField_ok_iff, checkIntField_ok_iff, checkIntRangeField_ok_iff,
      checkFloatField_ok_iff, checkIntField_ok_iff, checkIntField_ok_iff]

theorem lookupKey_nil (k : String) : lookupKey [] k = none := rfl

theorem lookupKey_cons (k0 : String) (v0 : PyVal) (rest : List (String × PyVal))
    (k : String) :
    lookupKey ((k0, v0) :: rest) k = if k0 = k then some v0 else lookupKey rest k := by
  by_cases h : k0 = k
  · subst h; simp [lookupKey, List.find?]
  · have hb : (k0 == k) = false := by simp [h]
    simp [lookupKey, List.find?, hb, h]

theorem lookupKey_append (l1 l2 : List (String × PyVal)) (k : String) :
    lookupKey (l1 ++ l2) k =
      match lookupKey l1 k with
      | some v => some v
      | none => lookupKey l2 k := by
  induction l1 with
  | nil => simp [lookupKey_nil]
  | cons kv rest ih =>
    rcases kv with ⟨k0, v0⟩
    by_cases h : k0 = k <;> simp [lookupKey_cons, h, ih]

theorem lookupKey_eq_none_iff (l : List (String × PyVal)) (k : String) :
    lookupKey l k = none ↔ ∀ p ∈ l, p.1 ≠ k := by
  simp [lookupKey, List.find?_eq_none]

theorem lookupKey_setKey (l : List (String × PyVal)) (k k2 : String) (v : PyVal) :
    lookupKey (setKey l k v) k2 = if k = k2 then some v else lookupKey l k2 := by
  induction l with
  | nil =>
    by_cases h : k = k2 <;> simp [setKey, lookupKey_cons, lookupKey_nil, h]
  | cons kv rest ih =>
    rcases kv with ⟨k0, v0⟩
    by_cases h0 : k0 = k
    · subst h0
      have hb : (k0 == k0) = true := by simp
      by_cases h : k0 = k2 <;> simp [setKey, hb, lookupKey_cons, h]
    · have hb : (k0 == k) = false := by simp [h0]
      by_cases h : k0 = k2
      · subst h
        have hne : ¬ k = k0 := fun hk => h0 hk.symm
        simp [setKey, hb, lookupKey_cons, hne]
      · simp [setKey, hb, lookupKey_cons, h, ih]

theorem lookupKey_dictUpdate (base other : List (String × PyVal)) (k : String)
    (hdist : other.Pairwise (fun a b => a.1 ≠ b.1)) :
    lookupKey (dictUpdate base other) k =
      match lookupKey other k with
      | some v => some v
      | none => lookupKey base k := by
  induction other generalizing base with
  | nil => simp [dictUpdate, lookupKey_nil]
  | cons kv rest ih =>
    rcases kv with ⟨k0, v0⟩
    have hstep : dictUpdate base ((k0, v0) :: rest) =
        dictUpdate (setKey base k0 v0) rest := rfl
    rw [hstep, ih _ (List.Pairwise.of_cons hdist)]
    have hrest : ∀ p ∈ rest, p.1 ≠ k0 :=
      fun p hp => fun hk => (List.pairwise_cons.mp hdist).1 p hp hk.symm
    by_cases h : k0 = k
    · subst h
      have hnone : lookupKey rest k0 = none :=
        (lookupKey_eq_none_iff rest k0).mpr hrest
      simp [hnone, lookupKey_cons, lookupKey_setKey]
    · simp [lookupKey_cons, h, lookupKey_setKey]

theorem mem_guardOpt {kv : String × PyVal} {k : String} {v : Option PyNum}
    (h : kv ∈ guardOpt k v) : kv.1 = k := by
  unfold guardOpt at h
  split at h
  · rcases v with _ | n <;> simp at h
    subst h; rfl
  · simp at h

theorem lookupKey_guardOpt_self (k : String) (v : Option PyNum) :
    lookupKey (guardOpt k v) k = truthyVal v := by
  unfold guardOpt truthyVal
  split
  · rcases v with _ | n <;> simp [lookupKey_nil, lookupKey_cons]
  · simp [lookupKey_nil]

theorem lookupKey_guardOpt_other (k k2 : String) (v : Option PyNum) (h : k ≠ k2) :
    lookupKey (guardOpt k v) k2 = none := by
  unfold guardOpt
  split
  · rcases v with _ | n <;> simp [lookupKey_nil, lookupKey_cons, h]
  · simp [lookupKey_nil]

theorem guardOpt_pairwise (k : String) (v : Option PyNum) :
    (guardOpt k v).Pairwise (fun a b => a.1 ≠ b.1) := by
  unfold guardOpt
  split
  · rcases v with _ | n <;> simp
  · simp

theorem pairwise_keys_append {l1 l2 : List (String × PyVal)}
    (h1 : l1.Pairwise (fun a b => a.1 ≠ b.1))
    (h2 : l2.Pairwise (fun a b => a.1 ≠ b.1))
    (hd : ∀ a ∈ l1, ∀ b ∈ l2, a.1 ≠ b.1) :
    (l1 ++ l2).Pairwise (fun a b => a.1 ≠ b.1) :=
  List.pairwise_append.mpr ⟨h1, h2, hd⟩

theorem if_truthy_truthyVal (v : Option PyNum) :
    (if optTruthy v then truthyVal v else none) = truthyVal v := by
  by_cases h : optTruthy v = true
  · simp [h]
  · simp only [Bool.not_eq_true] at h
    simp [h, truthyVal]

theorem lookupKey_guard_head (k : String) (v : Option PyNum)
    (rest : List (String × PyVal)) :
    lookupKey (guardOpt k v ++ rest) k =
      if optTruthy v then truthyVal v else lookupKey rest k := by
  rw [lookupKey_append, lookupKey_guardOpt_self]
  rcases v with _ | n
  · simp [optTruthy, truthyVal]
  · by_cases h : PyNum.truthy n = true
    · simp [optTruthy, h, truthyVal]
    · simp only [Bool.not_eq_true] at h
      simp [optTruthy, h, truthyVal]

theorem lookupKey_guard_skip (k k2 : String) (v : Option PyNum)
    (rest : List (String × PyVal)) (h : k ≠ k2) :
    lookupKey (guardOpt k v ++ rest) k2 = lookupKey rest k2 := by
  rw [lookupKey_append, lookupKey_guardOpt_other _ _ _ h]

theorem mem_append_guard {kv : String × PyVal} {k : String} {v : Option PyNum}
    {rest : List (String × PyVal)} (h : kv ∈ guardOpt k v ++ rest) :
    kv.1 = k ∨ kv ∈ rest := by
  rcases List.mem_append.mp h with h | h
  · exact Or.inl (mem_guardOpt h)
  · exact Or.inr h

/-- Every key the gateway option translation can emit. -/
theorem gatewayOpts_keys {kv : String × PyVal} {o : ModelOptions}
    (h : kv ∈ gatewayOpts o) :
    kv.1 ∈ (["num_ctx", "max_tokens", "top_k", "top_p", "temperature", "seed"] :
      List String) := by
  unfold gatewayOpts at h
  rcases mem_append_guard h with h1 | h
  · simp [h1]
  rcases mem_append_guard h with h1 | h
  · simp [h1]
  rcases mem_append_guard h with h1 | h
  · simp [h1]
  rcases mem_append_guard h with h1 | h
  · simp [h1]
  rcases mem_append_guard h with h1 | h
  · simp [h1]
  · simp [mem_guardOpt h]

/-- Every key the local-runner option translation can emit into the
nested dict. -/
theorem ollamaNested_keys {kv : String × PyVal} {o : ModelOptions}
    (h : kv ∈ ollamaNested o) :
    kv.1 ∈ (["num_predict", "temperature", "top_p", "seed", "top_k", "num_ctx"] :
      List String) := by
  unfold ollamaNested at h
  rcases mem_append_guard h with h1 | h
  · simp [h1]
  rcases mem_append_guard h with h1 | h
  · simp [h1]
  rcases mem_append_guard h with h1 | h
  · simp [h1]
  rcases mem_append_guard h with h1 | h
  · simp [h1]
  rcases mem_append_guard h with h1 | h
  · simp [h1]
  · simp [mem_guardOpt h]

theorem gatewayOpts_pairwise (o : ModelOptions) :
    (gatewayOpts o).Pairwise (fun a b => a.1 ≠ b.1) := by
  unfold gatewayOpts
  refine pairwise_keys_append (guardOpt_pairwise _ _) ?_ ?_
  rotate_right
  · intro a ha b hb
    rw [mem_guardOpt ha]
    rcases mem_append_guard hb with h1 | hb
    · rw [h1]; decide
    rcases mem_append_guard hb with h1 | hb
    · rw [h1]; decide
    rcases mem_append_guard hb with h1 | hb
    · rw [h1]; decide
    rcases mem_append_guard hb with h1 | hb
    · rw [h1]; decide
    · rw [mem_guardOpt hb]; decide
  refine pairwise_keys_append (guardOpt_pairwise _ _) ?_ ?_
  rotate_right
  · intro a ha b hb
    rw [mem_guardOpt ha]
    rcases mem_append_guard hb with h1 | hb
    · rw [h1]; decide
    rcases mem_append_guard hb with h1 | hb
    · rw [h1]; decide
    rcases mem_append_guard hb with h1 | hb
    · rw [h1]; decide
    · rw [mem_guardOpt hb]; decide
  refine pairwise_keys_append (guardOpt_pairwise _ _) ?_ ?_
  rotate_right
  · intro a ha b hb
    rw [mem_guardOpt ha]
    rcases mem_append_guard hb with h1 | hb
    · rw [h1]; decide
    rcases mem_append_guard hb with h1 | hb
    · rw [h1]; decide
    · rw [mem_guardOpt hb]; decide
  refine pairwise_keys_append (guardOpt_pairwise _ _) ?_ ?_
  rotate_right
  · intro a ha b hb
    rw [mem_guardOpt ha]
    rcases mem_append_guard hb with h1 | hb
    · rw [h1]; decide
    · rw [mem_guardOpt hb]; decide
  refine pairwise_keys_append (guardOpt_pairwise _ _) (guardOpt_pairwise _ _) ?_
  · intro a ha b hb
    rw [mem_guardOpt ha, mem_guardOpt hb]; decide

theorem ollamaNested_pairwise (o : ModelOptions) :
    (ollamaNested o).Pairwise (fun a b => a.1 ≠ b.1) := by
  unfold ollamaNested
  refine pairwise_keys_append (guardOpt_pairwise _ _) ?_ ?_
  rotate_right
  · intro a ha b hb
    rw [mem_guardOpt ha]
    rcases mem_append_guard hb with h1 | hb
    · rw [h1]; decide
    rcases mem_append_guard hb with h1 | hb
    · rw [h1]; decide
    rcases mem_append_guard hb with h1 | hb
    · rw [h1]; decide
    rcases mem_append_guard hb with h1 | hb
    · rw [h1]; decide
    · rw [mem_guardOpt hb]; decide
  refine pairwise_keys_append (guardOpt_pairwise _ _) ?_ ?_
  rotate_right
  · intro a ha b hb
    rw [mem_guardOpt ha]
    rcases mem_append_guard hb with h1 | hb
    · rw [h1]; decide
    rcases mem_append_guard hb with h1 | hb
    · rw [h1]; decide
    rcases mem_append_guard hb with h1 | hb
    · rw [h1]; decide
    · rw [mem_guardOpt hb]; decide
  refine pairwise_keys_append (guardOpt_pairwise _ _) ?_ ?_
  rotate_right
  · intro a ha b hb
    rw [mem_guardOpt ha]
    rcases mem_append_guard hb with h1 | hb
    · rw [h1]; decide
    rcases mem_append_guard hb with h1 | hb
    · rw [h1]; decide
    · rw [mem_guardOpt hb]; decide
  refine pairwise_keys_append (guardOpt_pairwise _ _) ?_ ?_
  rotate_right
  · intro a ha b hb
    rw [mem_guardOpt ha]
    rcases mem_append_guard hb with h1 | hb
    · rw [h1]; decide
    · rw [mem_guardOpt hb]; decide
  refine pairwise_keys_append (guardOpt_pairwise _ _) (guardOpt_pairwise _ _) ?_
  · intro a ha b hb
    rw [mem_guardOpt ha, mem_guardOpt hb]; decide

theorem gatewayOpts_lookup_num_ctx (o : ModelOptions) :
    lookupKey (gatewayOpts o) "num_ctx" = truthyVal o.context_window_size := by
  unfold gatewayOpts
  rw [lookupKey_guard_head,
      lookupKey_guard_skip _ _ _ _ (by decide),
      lookupKey_guard_skip _ _ _ _ (by decide),
      lookupKey_guard_skip _ _ _ _ (by decide),
      lookupKey_guard_skip _ _ _ _ (by decide),
      lookupKey_guardOpt_other _ _ _ (by decide),
      if_truthy_truthyVal]

theorem gatewayOpts_lookup_max_tokens (o : ModelOptions) :
    lookupKey (gatewayOpts o) "max_tokens" = truthyVal o.max_tokens := by
  unfold gatewayOpts
  rw [lookupKey_guard_skip _ _ _ _ (by decide),
      lookupKey_guard_head,
      lookupKey_guard_skip _ _ _ _ (by decide),
      lookupKey_guard_skip _ _ _ _ (by decide),
      lookupKey_guard_skip _ _ _ _ (by decide),
      lookupKey_guardOpt_other _ _ _ (by decide),
      if_truthy_truthyVal]

theorem gatewayOpts_lookup_top_k (o : ModelOptions) :
    lookupKey (gatewayOpts o) "top_k" = truthyVal o.top_k := by
  unfold gatewayOpts
  rw [lookupKey_guard_skip _ _ _ _ (by decide),
      lookupKey_guard_skip _ _ _ _ (by decide),
      lookupKey_guard_head,
      lookupKey_guard_skip _ _ _ _ (by decide),
      lookupKey_guard_skip _ _ _ _ (by decide),
      lookupKey_guardOpt_other _ _ _ (by decide),
      if_truthy_truthyVal]

theorem gatewayOpts_lookup_top_p (o : ModelOptions) :
    lookupKey (gatewayOpts o) "top_p" = truthyVal o.top_p := by
  unfold gatewayOpts
  rw [lookupKey_guard_skip _ _ _ _ (by decide),
      lookupKey_guard_skip _ _ _ _ (by decide),
      lookupKey_guard_skip _ _ _ _ (by decide),
      lookupKey_guard_head,
      lookupKey_guard_skip _ _ _ _ (by decide),
      lookupKey_guardOpt_other _ _ _ (by decide),
      if_truthy_truthyVal]

theorem gatewayOpts_lookup_temperature (o : ModelOptions) :
    lookupKey (gatewayOpts o) "temperature" = truthyVal o.temperature := by
  unfold gatewayOpts
  rw [lookupKey_guard_skip _ _ _ _ (by decide),
      lookupKey_guard_skip _ _ _ _ (by decide),
      lookupKey_guard_skip _ _ _ _ (by decide),
      lookupKey_guard_skip _ _ _ _ (by decide),
      lookupKey_guard_head,
      lookupKey_guardOpt_other _ _ _ (by decide),
      if_truthy_truthyVal]

theorem gatewayOpts_lookup_seed (o : ModelOptions) :
    lookupKey (gatewayOpts o) "seed" = truthyVal o.seed := by
  unfold gatewayOpts
  rw [lookupKey_guard_skip _ _ _ _ (by decide),
      lookupKey_guard_skip _ _ _ _ (by decide),
      lookupKey_guard_skip _ _ _ _ (by decide),
      lookupKey_guard_skip _ _ _ _ (by decide),
      lookupKey_guard_skip _ _ _ _ (by decide),
      lookupKey_guardOpt_self]

theorem ollamaNested_lookup_num_predict (o : ModelOptions) :
    lookupKey (ollamaNested o) "num_predict" = truthyVal o.max_tokens := by
  unfold ollamaNested
  rw [lookupKey_guard_head,
      lookupKey_guard_skip _ _ _ _ (by decide),
      lookupKey_guard_skip _ _ _ _ (by decide),
      lookupKey_guard_skip _ _ _ _ (by decide),
      lookupKey_guard_skip _ _ _ _ (by decide),
      lookupKey_guardOpt_other _ _ _ (by decide),
      if_truthy_truthyVal]

theorem ollamaNested_lookup_temperature (o : ModelOptions) :
    lookupKey (ollamaNested o) "temperature" = truthyVal o.temperature := by
  unfold ollamaNested
  rw [lookupKey_guard_skip _ _ _ _ (by decide),
      lookupKey_guard_head,
      lookupKey_guard_skip _ _ _ _ (by decide),
      lookupKey_guard_skip _ _ _ _ (by decide),
      lookupKey_guard_skip _ _ _ _ (by decide),
      lookupKey_guardOpt_other _ _ _ (by decide),
      if_truthy_truthyVal]

theorem ollamaNested_lookup_top_p (o : ModelOptions) :
    lookupKey (ollamaNested o) "top_p" = truthyVal o.top_p := by
  unfold ollamaNested
  rw [lookupKey_guard_skip _ _ _ _ (by decide),
      lookupKey_guard_skip _ _ _ _ (by decide),
      lookupKey_guard_head,
      lookupKey_guard_skip _ _ _ _ (by decide),
      lookupKey_guard_skip _ _ _ _ (by decide),
      lookupKey_guardOpt_other _ _ _ (by decide),
      if_truthy_truthyVal]

theorem ollamaNested_lookup_seed (o : ModelOptions) :
    lookupKey (ollamaNested o) "seed" = truthyVal o.seed := by
  unfold ollamaNested
  rw [lookupKey_guard_skip _ _ _ _ (by decide),
      lookupKey_guard_skip _ _ _ _ (by decide),
      lookupKey_guard_skip _ _ _ _ (by decide),
      lookupKey_guard_head,
      lookupKey_guard_skip _ _ _ _ (by decide),
      lookupKey_guardOpt_other _ _ _ (by decide),
      if_truthy_truthyVal]

theorem ollamaNested_lookup_top_k (o : ModelOptions) :
    lookupKey (ollamaNested o) "top_k" = truthyVal o.top_k := by
  unfold ollamaNested
  rw [lookupKey_guard_skip _ _ _ _ (by decide),
      lookupKey_guard_skip _ _ _ _ (by decide),
      lookupKey_guard_skip _ _ _ _ (by decide),
      lookupKey_guard_skip _ _ _ _ (by decide),
      lookupKey_guard_head,
      lookupKey_guardOpt_other _ _ _ (by decide),
      if_truthy_truthyVal]

theorem ollamaNested_lookup_num_ctx (o : ModelOptions) :
    lookupKey (ollamaNested o) "num_ctx" = truthyVal o.context_window_size := by
  unfold ollamaNested
  rw [lookupKey_guard_skip _ _ _ _ (by decide),
      lookupKey_guard_skip _ _ _ _ (by decide),
      lookupKey_guard_skip _ _ _ _ (by decide),
      lookupKey_guard_skip _ _ _ _ (by decide),
      lookupKey_guard_skip _ _ _ _ (by decide),
      lookupKey_guardOpt_self]

theorem gateway_parseOptions_ok (o : ModelOptions) (h : o.validate = Except.ok ()) :
    OpenWebUIClient.parseOptions o = Except.ok (gatewayOpts o) := by
  simp [OpenWebUIClient.parseOptions, h, Bind.bind, Except.bind, Pure.pure, Except.pure]

theorem gateway_parseOptions_error (o : ModelOptions) (e : PyError)
    (h : o.validate = Except.error e) :
    OpenWebUIClient.parseOptions o = Except.error e := by
  simp [OpenWebUIClient.parseOptions, h, Bind.bind, Except.bind, Pure.pure, Except.pure]

theorem ollama_parseOptions_ok (o : ModelOptions) (h : o.validate = Except.ok ()) :
    OllamaClient.parseOptions o =
      Except.ok (if (ollamaNested o).isEmpty then []
                 else [("options", PyVal.dict (ollamaNested o))]) := by
  by_cases hn : (ollamaNested o).isEmpty <;>
    simp [OllamaClient.parseOptions, h, hn, Bind.bind, Except.bind, Pure.pure, Except.pure]

theorem ollama_parseOptions_error (o : ModelOptions) (e : PyError)
    (h : o.validate = Except.error e) :
    OllamaClient.parseOptions o = Except.error e := by
  simp [OllamaClient.parseOptions, h, Bind.bind, Except.bind, Pure.pure, Except.pure]

theorem gateway_postBody_ok (c : OpenWebUIClient) (message modelName : String)
    (o : ModelOptions) (h : o.validate = Except.ok ()) :
    c.postBody message modelName (some o) =
      Except.ok (bodyWithSystem c.systemPrompt
        (dictUpdate (gatewayBaseBody message modelName) (gatewayOpts o))) := by
  simp [OpenWebUIClient.postBody, gateway_parseOptions_ok o h, Bind.bind, Except.bind, Pure.pure, Except.pure]

theorem gateway_postBody_none (c : OpenWebUIClient) (message modelName : String) :
    c.postBody message modelName none =
      Except.ok (bodyWithSystem c.systemPrompt
        (dictUpdate (gatewayBaseBody message modelName) [])) := by
  simp [OpenWebUIClient.postBody, Bind.bind, Except.bind, Pure.pure, Except.pure]

theorem gateway_postBody_error (c : OpenWebUIClient) (message modelName : String)
    (o : ModelOptions) (e : PyError) (h : o.validate = Except.error e) :
    c.postBody message modelName (some o) = Except.error e := by
  simp [OpenWebUIClient.postBody, gateway_parseOptions_error o e h, Bind.bind, Except.bind, Pure.pure, Except.pure]

theorem ollama_postBody_ok (c : OllamaClient) (message modelName : String)
    (o : ModelOptions) (h : o.validate = Except.ok ()) :
    c.postBody message modelName (some o) =
      Except.ok (bodyWithSystem c.systemPrompt
        (dictUpdate (ollamaBaseBody message modelName)
          (if (ollamaNested o).isEmpty then []
           else [("options", PyVal.dict (ollamaNested o))]))) := by
  simp [OllamaClient.postBody, ollama_parseOptions_ok o h, Bind.bind, Except.bind, Pure.pure, Except.pure]

theorem ollama_postBody_none (c : OllamaClient) (message modelName : String) :
    c.postBody message modelName none =
      Except.ok (bodyWithSystem c.systemPrompt
        (dictUpdate (ollamaBaseBody message modelName) [])) := by
  simp [OllamaClient.postBody, Bind.bind, Except.bind, Pure.pure, Except.pure]

theorem ollama_postBody_error (c : OllamaClient) (message modelName : String)
    (o : ModelOptions) (e : PyError) (h : o.validate = Except.error e) :
    c.postBody message modelName (some o) = Except.error e := by
  simp [OllamaClient.postBody, ollama_parseOptions_error o e h, Bind.bind, Except.bind, Pure.pure, Except.pure]

theorem lookupKey_bodyWithSystem_other (sys : String) (body : List (String × PyVal))
    (k : String) (hk : k ≠ "messages") :
    lookupKey (bodyWithSystem sys body) k = lookupKey body k := by
  unfold bodyWithSystem
  split
  · rw [lookupKey_setKey, if_neg (fun h => hk h.symm)]
  · rfl

theorem lookupKey_bodyWithSystem_messages (sys : String)
    (body : List (String × PyVal)) (ms : List PyVal)
    (hm : lookupKey body "messages" = some (PyVal.list ms)) :
    lookupKey (bodyWithSystem sys body) "messages" =
      if sys ≠ "" then some (PyVal.list (generateSystemMessage sys :: ms))
      else some (PyVal.list ms) := by
  unfold bodyWithSystem
  split
  · next hs => rw [lookupKey_setKey, if_pos rfl, hm]
  · next hs => rw [hm]

theorem lookupKey_gatewayBaseBody_other (message modelName k : String)
    (h1 : k ≠ "model") (h2 : k ≠ "messages") :
    lookupKey (gatewayBaseBody message modelName) k = none := by
  unfold gatewayBaseBody
  rw [lookupKey_cons, if_neg (fun h => h1 h.symm), lookupKey_cons,
      if_neg (fun h => h2 h.symm), lookupKey_nil]

theorem lookupKey_ollamaBaseBody_other (message modelName k : String)
    (h1 : k ≠ "model") (h2 : k ≠ "messages") (h3 : k ≠ "stream") :
    lookupKey (ollamaBaseBody message modelName) k = none := by
  unfold ollamaBaseBody
  rw [lookupKey_cons, if_neg (fun h => h1 h.symm), lookupKey_cons,
      if_neg (fun h => h2 h.symm), lookupKey_cons,
      if_neg (fun h => h3 h.symm), lookupKey_nil]

theorem gatewayOpts_lookup_notin (o : ModelOptions) (k : String)
    (hk : k ∉ (["num_ctx", "max_tokens", "top_k", "top_p", "temperature", "seed"] :
      List String)) :
    lookupKey (gatewayOpts o) k = none :=
  (lookupKey_eq_none_iff _ _).mpr
    (fun _p hp hpk => hk (hpk ▸ gatewayOpts_keys hp))

/-- Body lookup for any key other than the base keys: the flat merge
means the key is answered by the translated options. -/
theorem gateway_body_lookup_opts (sys message modelName : String)
    (opts : List (String × PyVal)) (hpw : opts.Pairwise (fun a b => a.1 ≠ b.1))
    (k : String) (h1 : k ≠ "model") (h2 : k ≠ "messages") :
    lookupKey (bodyWithSystem sys (dictUpdate (gatewayBaseBody message modelName) opts)) k
      = lookupKey opts k := by
  rw [lookupKey_bodyWithSystem_other _ _ _ h2, lookupKey_dictUpdate _ _ _ hpw]
  cases hl : lookupKey opts k
  · rw [lookupKey_gatewayBaseBody_other _ _ _ h1 h2]
  · rfl

theorem ollama_body_lookup_opts (sys message modelName : String)
    (opts : List (String × PyVal)) (hpw : opts.Pairwise (fun a b => a.1 ≠ b.1))
    (k : String) (h1 : k ≠ "model") (h2 : k ≠ "messages") (h3 : k ≠ "stream") :
    lookupKey (bodyWithSystem sys (dictUpdate (ollamaBaseBody message modelName) opts)) k
      = lookupKey opts k := by
  rw [lookupKey_bodyWithSystem_other _ _ _ h2, lookupKey_dictUpdate _ _ _ hpw]
  cases hl : lookupKey opts k
  · rw [lookupKey_ollamaBaseBody_other _ _ _ h1 h2 h3]
  · rfl

theorem gateway_body_lookup_model (sys message modelName : String)
    (opts : List (String × PyVal)) (hpw : opts.Pairwise (fun a b => a.1 ≠ b.1))
    (hno : lookupKey opts "model" = none) :
    lookupKey (bodyWithSystem sys (dictUpdate (gatewayBaseBody message modelName) opts))
      "model" = some (PyVal.str modelName) := by
  rw [lookupKey_bodyWithSystem_other _ _ _ (by decide),
      lookupKey_dictUpdate _ _ _ hpw, hno]
  rfl

theorem ollama_body_lookup_model (sys message modelName : String)
    (opts : List (String × PyVal)) (hpw : opts.Pairwise (fun a b => a.1 ≠ b.1))
    (hno : lookupKey opts "model" = none) :
    lookupKey (bodyWithSystem sys (dictUpdate (ollamaBaseBody message modelName) opts))
      "model" = some (PyVal.str modelName) := by
  rw [lookupKey_bodyWithSystem_other _ _ _ (by decide),
      lookupKey_dictUpdate _ _ _ hpw, hno]
  rfl

theorem ollama_body_lookup_stream (sys message modelName : String)
    (opts : List (String × PyVal)) (hpw : opts.Pairwise (fun a b => a.1 ≠ b.1))
    (hno : lookupKey opts "stream" = none) :
    lookupKey (bodyWithSystem sys (dictUpdate (ollamaBaseBody message modelName) opts))
      "stream" = some (PyVal.boolean false) := by
  rw [lookupKey_bodyWithSystem_other _ _ _ (by decide),
      lookupKey_dictUpdate _ _ _ hpw, hno]
  rfl

/-- The messages entry of a gateway body: the user message, with the
system message prepended exactly when a system prompt is stored. -/
theorem gateway_body_messages (sys message modelName : String)
    (opts : List (String × PyVal)) (hpw : opts.Pairwise (fun a b => a.1 ≠ b.1))
    (hno : lookupKey opts "messages" = none) :
    lookupKey (bodyWithSystem sys (dictUpdate (gatewayBaseBody message modelName) opts))
      "messages" =
      if sys ≠ "" then
        some (PyVal.list [generateSystemMessage sys, userMessage message])
      else some (PyVal.list [userMessage message]) := by
  have hdm : lookupKey (dictUpdate (gatewayBaseBody message modelName) opts)
      "messages" = some (PyVal.list [userMessage message]) := by
    rw [lookupKey_dictUpdate _ _ _ hpw, hno]; rfl
  rw [lookupKey_bodyWithSystem_messages _ _ _ hdm]

theorem ollama_body_messages (sys message modelName : String)
    (opts : List (String × PyVal)) (hpw : opts.Pairwise (fun a b => a.1 ≠ b.1))
    (hno : lookupKey opts "messages" = none) :
    lookupKey (bodyWithSystem sys (dictUpdate (ollamaBaseBody message modelName) opts))
      "messages" =
      if sys ≠ "" then
        some (PyVal.list [generateSystemMessage sys, userMessage message])
      else some (PyVal.list [userMessage message]) := by
  have hdm : lookupKey (dictUpdate (ollamaBaseBody message modelName) opts)
      "messages" = some (PyVal.list [userMessage message]) := by
    rw [lookupKey_dictUpdate _ _ _ hpw, hno]; rfl
  rw [lookupKey_bodyWithSystem_messages _ _ _ hdm]

theorem guardOpt_isEmpty (k : String) (v : Option PyNum) :
    (guardOpt k v).isEmpty = !optTruthy v := by
  unfold guardOpt
  rcases v with _ | n
  · simp [optTruthy]
  · by_cases h : PyNum.truthy n = true
    · simp [optTruthy, h]
    · simp only [Bool.not_eq_true] at h
      simp [optTruthy, h]

theorem isEmpty_append (a b : List (String × PyVal)) :
    (a ++ b).isEmpty = (a.isEmpty && b.isEmpty) := by
  cases a <;> simp [List.isEmpty]

/-- The nested local-runner options dict is empty exactly when every
option field is falsy (absent or zero). -/
theorem ollamaNested_isEmpty_iff (o : ModelOptions) :
    (ollamaNested o).isEmpty = true ↔
      (optTruthy o.max_tokens = false ∧ optTruthy o.temperature = false ∧
       optTruthy o.top_p = false ∧ optTruthy o.seed = false ∧
       optTruthy o.top_k = false ∧ optTruthy o.context_window_size = false) := by
  unfold ollamaNested
  simp only [isEmpty_append, guardOpt_isEmpty, Bool.and_eq_true, Bool.not_eq_true']

theorem exceptBind_ok {ε α β : Type} (a : α) (f : α → Except ε β) :
    Except.bind (Except.ok a) f = f a := rfl

theorem exceptBind_error {ε α β : Type} (e : ε) (f : α → Except ε β) :
    Except.bind (Except.error e) f = Except.error e := rfl

theorem getSmallestAux_cons (m : AIModel) (rest : List AIModel) (smallest q : ℚ)
    (chosen : Option AIModel) (hq : parseSize m = Except.ok q) :
    getSmallestAux (m :: rest) smallest chosen =
      if q < smallest then getSmallestAux rest q (some m)
      else getSmallestAux rest smallest chosen := by
  by_cases hlt : q < smallest <;>
    simp [getSmallestAux, hq, hlt, Bind.bind, Except.bind]

theorem getSmallestAux_cons_error (m : AIModel) (rest : List AIModel)
    (smallest : ℚ) (chosen : Option AIModel) (e : PyError)
    (he : parseSize m = Except.error e) :
    getSmallestAux (m :: rest) smallest chosen = Except.error e := by
  simp [getSmallestAux, he, Bind.bind, Except.bind]

/-- Invariant of the `_get_smallest_model` loop: the result is either the
running candidate or a member of the remaining list beating the running
minimum, and it is no larger than any remaining model that beats the
running minimum. -/
theorem getSmallestAux_spec (l : List AIModel) (smallest : ℚ)
    (chosen res : Option AIModel)
    (hok : getSmallestAux l smallest chosen = Except.ok res) :
    (res = chosen ∨ ∃ c, c ∈ l ∧ res = some c ∧
        ∃ qc, parseSize c = Except.ok qc ∧ qc < smallest) ∧
    (∀ m, m ∈ l → ∀ qm, parseSize m = Except.ok qm → qm < smallest →
      ∃ c qc, res = some c ∧ parseSize c = Except.ok qc ∧ qc ≤ qm) := by
  induction l generalizing smallest chosen with
  | nil =>
    refine ⟨Or.inl ?_, by simp⟩
    simpa [getSmallestAux] using hok.symm
  | cons m rest ih =>
    cases hpm : parseSize m with
    | error e => rw [getSmallestAux_cons_error _ _ _ _ _ hpm] at hok; cases hok
    | ok q =>
      rw [getSmallestAux_cons _ _ _ _ _ hpm] at hok
      by_cases hlt : q < smallest
      · rw [if_pos hlt] at hok
        obtain ⟨h1, h2⟩ := ih _ _ hok
        constructor
        · rcases h1 with h1 | ⟨c, hc, hres, qc, hqc, hqlt⟩
          · exact Or.inr ⟨m, by simp, h1, q, hpm, hlt⟩
          · exact Or.inr ⟨c, by simp [hc], hres, qc, hqc, lt_trans hqlt hlt⟩
        · intro m2 hm2 qm hqm hqmlt
          rcases List.mem_cons.mp hm2 with rfl | hm2
          · have hqq : q = qm := by
              rw [hpm] at hqm
              exact (Except.ok.injEq _ _).mp hqm
            subst hqq
            rcases h1 with h1 | ⟨c, hc, hres, qc, hqc, hqlt⟩
            · exact ⟨m2, q, h1, hpm, le_refl q⟩
            · exact ⟨c, qc, hres, hqc, le_of_lt hqlt⟩
          · by_cases hq2 : qm < q
            · exact h2 m2 hm2 qm hqm hq2
            · push_neg at hq2
              rcases h1 with h1 | ⟨c, hc, hres, qc, hqc, hqlt⟩
              · exact ⟨m, q, h1, hpm, hq2⟩
              · exact ⟨c, qc, hres, hqc, le_trans (le_of_lt hqlt) hq2⟩
      · rw [if_neg hlt] at hok
        obtain ⟨h1, h2⟩ := ih _ _ hok
        constructor
        · rcases h1 with h1 | ⟨c, hc, hres, qc, hqc, hqlt⟩
          · exact Or.inl h1
          · exact Or.inr ⟨c, by simp [hc], hres, qc, hqc, hqlt⟩
        · intro m2 hm2 qm hqm hqmlt
          rcases List.mem_cons.mp hm2 with rfl | hm2
          · have hqq : q = qm := by
              rw [hpm] at hqm
              exact (Except.ok.injEq _ _).mp hqm
            subst hqq
            exact absurd hqmlt hlt
          · exact h2 m2 hm2 qm hqm hqmlt

theorem getSmallestAux_ok (l : List AIModel) (smallest : ℚ) (chosen : Option AIModel)
    (h : ∀ m ∈ l, ∃ q, parseSize m = Except.ok q) :
    ∃ res, getSmallestAux l smallest chosen = Except.ok res := by
  induction l generalizing smallest chosen with
  | nil => exact ⟨chosen, rfl⟩
  | cons m rest ih =>
    rcases h m (by simp) with ⟨q, hq⟩
    rw [getSmallestAux_cons _ _ _ _ _ hq]
    by_cases hlt : q < smallest
    · rw [if_pos hlt]
      exact ih _ _ (fun m2 hm2 => h m2 (by simp [hm2]))
    · rw [if_neg hlt]
      exact ih _ _ (fun m2 hm2 => h m2 (by simp [hm2]))

theorem getSmallestAux_error_of_bad (l : List AIModel) (smallest : ℚ)
    (chosen : Option AIModel)
    (h : ∃ m, m ∈ l ∧ parseDecimal (stripB m.parameter_size) = none) :
    ∃ e, getSmallestAux l smallest chosen = Except.error e := by
  induction l generalizing smallest chosen with
  | nil => rcases h with ⟨m, hm, _⟩; cases hm
  | cons m0 rest ih =>
    cases hpm : parseSize m0 with
    | error e => exact ⟨e, getSmallestAux_cons_error _ _ _ _ _ hpm⟩
    | ok q =>
      rcases h with ⟨m, hm, hbad⟩
      rcases List.mem_cons.mp hm with rfl | hm
      · exfalso
        unfold parseSize at hpm
        rw [hbad] at hpm
        cases hpm
      · rw [getSmallestAux_cons _ _ _ _ _ hpm]
        by_cases hlt : q < smallest
        · rw [if_pos hlt]; exact ih _ _ ⟨m, hm, hbad⟩
        · rw [if_neg hlt]; exact ih _ _ ⟨m, hm, hbad⟩

theorem gatewayModelsFromEntries_cons_ok (e : PyVal) (rest : List PyVal)
    (m : AIModel) (ms : List AIModel)
    (he : extractGatewayModel e = Except.ok m)
    (hrest : gatewayModelsFromEntries rest = Except.ok ms) :
    gatewayModelsFromEntries (e :: rest) = Except.ok (m :: ms) := by
  simp [gatewayModelsFromEntries, he, hrest, Bind.bind, Except.bind,
    Pure.pure, Except.pure]

/-- One malformed entry anywhere makes the whole accumulation fail. -/
theorem gatewayModelsFromEntries_error (entries : List PyVal)
    (h : ∃ x, x ∈ entries ∧ ∃ err, extractGatewayModel x = Except.error err) :
    ∃ err, gatewayModelsFromEntries entries = Except.error err := by
  induction entries with
  | nil => rcases h with ⟨x, hx, _⟩; cases hx
  | cons e rest ih =>
    rcases h with ⟨x, hx, err, herr⟩
    rcases List.mem_cons.mp hx with rfl | hx
    · exact ⟨err, by simp [gatewayModelsFromEntries, herr, Bind.bind, Except.bind]⟩
    · cases hext : extractGatewayModel e with
      | error e2 =>
        exact ⟨e2, by simp [gatewayModelsFromEntries, hext, Bind.bind, Except.bind]⟩
      | ok m =>
        rcases ih ⟨x, hx, err, herr⟩ with ⟨err2, herr2⟩
        exact ⟨err2, by simp [gatewayModelsFromEntries, hext, herr2,
          Bind.bind, Except.bind]⟩

theorem gateway_foldl_set_ne (c : OpenWebUIClient) (ps : List String)
    (h : c.systemPrompt ≠ "") :
    (ps.foldl OpenWebUIClient.set_system_prompt c).systemPrompt ≠ "" := by
  induction ps generalizing c with
  | nil => exact h
  | cons p rest ih =>
    apply ih
    unfold OpenWebUIClient.set_system_prompt
    split
    · next hp => simpa using hp
    · exact h

theorem ollama_foldl_set_ne (c : OllamaClient) (ps : List String)
    (h : c.systemPrompt ≠ "") :
    (ps.foldl OllamaClient.set_system_prompt c).systemPrompt ≠ "" := by
  induction ps generalizing c with
  | nil => exact h
  | cons p rest ih =>
    apply ih
    unfold OllamaClient.set_system_prompt
    split
    · next hp => simpa using hp
    · exact h

/-- `chat_completion` of the gateway client, with the posted body already
discharged: the remaining behaviour is the response handling. -/
theorem gateway_chat_completion_eq (c : OpenWebUIClient) (message : String)
    (model : AIModel) (options : Option ModelOptions) (t0 dParse dNet : ℚ)
    (net : Except PyError PyVal) (body : List (String × PyVal))
    (hbody : c.postBody message model.name options = Except.ok body) :
    c.chat_completion message model options t0 dParse dNet net =
      match net with
      | Except.error e => Except.error e
      | Except.ok response =>
        match pyGetItem response "choices" with
        | Except.error e => Except.error e
        | Except.ok (PyVal.list []) => Except.ok none
        | Except.ok (PyVal.list (choice :: _)) =>
          match extractChoiceContent choice with
          | Except.ok content =>
            Except.ok (some (pyInt (((t0 + dParse + dNet) - t0) * 1000), content))
          | Except.error exc =>
            Except.ok (some (-1, PyVal.str (pyErrStr exc)))
        | Except.ok _ => Except.error (PyError.typeError "object is not iterable") := by
  cases net with
  | error e => simp [OpenWebUIClient.chat_completion, hbody, Bind.bind, Except.bind]
  | ok response =>
    simp only [OpenWebUIClient.chat_completion, hbody, Bind.bind, Except.bind]
    cases pyGetItem response "choices" with
    | error e => rfl
    | ok choices =>
      cases choices with
      | list xs =>
        cases xs with
        | nil => rfl
        | cons choice tail =>
          cases extractChoiceContent choice with
          | ok content => rfl
          | error exc => rfl
      | str s => rfl
      | num n => rfl
      | boolean b => rfl
      | dict kvs => rfl
      | pynone => rfl

/-- `chat_completion` of the local-runner client, with the posted body
already discharged: the rest is the timed network call and the bare
(uncaught) extraction of the message content. -/
theorem ollama_chat_completion_eq (c : OllamaClient) (message : String)
    (model : AIModel) (options : Option ModelOptions) (t0 dParse dNet : ℚ)
    (net : Except PyError PyVal) (body : List (String × PyVal))
    (hbody : c.postBody message model.name options = Except.ok body) :
    c.chat_completion message model options t0 dParse dNet net =
      Except.bind net (fun response =>
        Except.bind (pyGetItem response "message") (fun msg =>
          Except.bind (pyGetItem msg "content") (fun content =>
            Except.ok (((t0 + dParse + dNet) - t0) * 1000, content)))) := by
  simp only [OllamaClient.chat_completion, hbody, Bind.bind, Pure.pure, Except.pure]
  rw [exceptBind_ok]

/-- A chat message dict whose role entry is the string "system". -/
def isSystemMessage (m : PyVal) : Bool :=
  match m with
  | .dict kvs =>
    match lookupKey kvs "role" with
    | some (.str r) => r == "system"
    | _ => false
  | _ => false

/-- The messages entry of any gateway body: the system message is
prepended exactly when the instance holds a non-empty system prompt. -/
theorem gateway_postBody_messages (c : OpenWebUIClient) (message modelName : String)
    (options : Option ModelOptions) (body : List (String × PyVal))
    (hb : c.postBody message modelName options = Except.ok body) :
    lookupKey body "messages" =
      if c.systemPrompt ≠ "" then
        some (PyVal.list [generateSystemMessage c.systemPrompt, userMessage message])
      else some (PyVal.list [userMessage message]) := by
  cases options with
  | none =>
    rw [gateway_postBody_none] at hb
    obtain rfl := (Except.ok.injEq _ _).mp hb
    exact gateway_body_messages _ _ _ [] (by simp) (by rfl)
  | some o =>
    cases hv : o.validate with
    | ok u =>
      cases u
      rw [gateway_postBody_ok c message modelName o hv] at hb
      obtain rfl := (Except.ok.injEq _ _).mp hb
      exact gateway_body_messages _ _ _ _ (gatewayOpts_pairwise o)
        (gatewayOpts_lookup_notin o _ (by decide))
    | error e =>
      rw [gateway_postBody_error c message modelName o e hv] at hb
      cases hb

/-- The messages entry of any local-runner body. -/
theorem ollama_postBody_messages (c : OllamaClient) (message modelName : String)
    (options : Option ModelOptions) (body : List (String × PyVal))
    (hb : c.postBody message modelName options = Except.ok body) :
    lookupKey body "messages" =
      if c.systemPrompt ≠ "" then
        some (PyVal.list [generateSystemMessage c.systemPrompt, userMessage message])
      else some (PyVal.list [userMessage message]) := by
  cases options with
  | none =>
    rw [ollama_postBody_none] at hb
    obtain rfl := (Except.ok.injEq _ _).mp hb
    exact ollama_body_messages _ _ _ [] (by simp) (by rfl)
  | some o =>
    cases hv : o.validate with
    | ok u =>
      cases u
      rw [ollama_postBody_ok c message modelName o hv] at hb
      obtain rfl := (Except.ok.injEq _ _).mp hb
      refine ollama_body_messages _ _ _ _ ?_ ?_
      · split <;> simp
      · split <;> simp [lookupKey_cons, lookupKey_nil]
    | error e =>
      rw [ollama_postBody_error c message modelName o e hv] at hb
      cases hb

/-! ## Claim theorems -/

/-- Claim C2, counterexample: `ModelOptions(temperature=0)` supplies a
non-float temperature, yet `validate` returns without raising (the
`if self.temperature:` guard is falsy for zero, so the `isinstance`
check never runs), and the gateway request body is still built, so a
request would be sent. This refutes the claim that validation rejects
every non-float temperature before any network call. -/
theorem c2_counterexample :
    ModelOptions.validate { temperature := some (PyNum.int 0) } = Except.ok () ∧
    OpenWebUIClient.postBody
      { host := "chat.hpc.fau.edu", bearer := "b", systemPrompt := "" }
      "hi" "m" (some { temperature := some (PyNum.int 0) }) =
      Except.ok [("model", PyVal.str "m"),
                 ("messages", PyVal.list [userMessage "hi"])] :=
  ⟨rfl, rfl⟩

/-- Claim C2 (amended): validation rejects exactly the truthy
(non-absent and non-zero) fields that violate their declared type or
range — truthy temperature not a float or outside [0,1]; truthy top_k
not an int or outside [0,100]; truthy top_p not a float or outside
[0,1]; truthy non-int max_tokens, context_window_size or seed — and
when validation raises, neither client builds a request body, so no
request is sent; falsy (absent or zero) fields are never rejected. -/
theorem c2_validation (o : ModelOptions) (c : OpenWebUIClient) (oc : OllamaClient)
    (message modelName : String) :
    (o.validate = Except.ok () ↔
      ((optTruthy o.temperature = true →
          ∃ q : ℚ, o.temperature = some (PyNum.float q) ∧ 0 ≤ q ∧ q ≤ 1) ∧
       (optTruthy o.max_tokens = true →
          ∃ n : ℤ, o.max_tokens = some (PyNum.int n)) ∧
       (optTruthy o.top_k = true →
          ∃ n : ℤ, o.top_k = some (PyNum.int n) ∧ 0 ≤ n ∧ n ≤ 100) ∧
       (optTruthy o.top_p = true →
          ∃ q : ℚ, o.top_p = some (PyNum.float q) ∧ 0 ≤ q ∧ q ≤ 1) ∧
       (optTruthy o.context_window_size = true →
          ∃ n : ℤ, o.context_window_size = some (PyNum.int n)) ∧
       (optTruthy o.seed = true → ∃ n : ℤ, o.seed = some (PyNum.int n)))) ∧
    (∀ e : PyError, o.validate = Except.error e →
      c.postBody message modelName (some o) = Except.error e ∧
      oc.postBody message modelName (some o) = Except.error e) :=
  ⟨validate_ok_iff o,
   fun e he => ⟨gateway_postBody_error c message modelName o e he,
                ollama_postBody_error oc message modelName o e he⟩⟩

/-- Witness for C2: a truthy out-of-range `top_k = 150` cannot pass
validation, by the characterisation. -/
theorem c2_validation_witness :
    ModelOptions.validate { top_k := some (PyNum.int 150) } ≠ Except.ok () := by
  intro hok
  have h := (c2_validation { top_k := some (PyNum.int 150) }
      { host := "h", bearer := "b", systemPrompt := "" }
      { host := "h", systemPrompt := "" } "m" "n").1.mp hok
  rcases h.2.2.1 (by decide) with ⟨n, hn, _, h100⟩
  simp only [Option.some.injEq, PyNum.int.injEq] at hn
  omega

/-- Claim C3, counterexample: `temperature = 0.0` is a valid (float,
in-range) non-absent field, yet the gateway translation drops it — the
produced mapping is empty — because the insertion is guarded by Python
truthiness, refuting "contains exactly the non-absent fields". -/
theorem c3_counterexample :
    ModelOptions.validate { temperature := some (PyNum.float 0) } = Except.ok () ∧
    OpenWebUIClient.parseOptions { temperature := some (PyNum.float 0) } =
      Except.ok [] :=
  ⟨rfl, rfl⟩

/-- Claim C3 (amended): for every ModelOptions passing validation, the
gateway translation produces a flat mapping containing exactly the
truthy (non-absent and non-zero) fields, merged at the top level of the
request body under the names max_tokens, top_k, top_p, temperature,
seed and num_ctx, with no nesting (no "options" sub-object); falsy
fields are omitted. -/
theorem c3_gateway_flat_merge (o : ModelOptions) (h : o.validate = Except.ok ())
    (c : OpenWebUIClient) (message modelName : String) :
    ∃ body, c.postBody message modelName (some o) = Except.ok body ∧
      lookupKey body "max_tokens" = truthyVal o.max_tokens ∧
      lookupKey body "top_k" = truthyVal o.top_k ∧
      lookupKey body "top_p" = truthyVal o.top_p ∧
      lookupKey body "temperature" = truthyVal o.temperature ∧
      lookupKey body "seed" = truthyVal o.seed ∧
      lookupKey body "num_ctx" = truthyVal o.context_window_size ∧
      lookupKey body "options" = none ∧
      lookupKey body "model" = some (PyVal.str modelName) ∧
      OpenWebUIClient.parseOptions o = Except.ok (gatewayOpts o) ∧
      (∀ kv ∈ gatewayOpts o, kv.1 ∈
        (["num_ctx", "max_tokens", "top_k", "top_p", "temperature", "seed"] :
          List String)) := by
  refine ⟨_, gateway_postBody_ok c message modelName o h, ?_, ?_, ?_, ?_, ?_, ?_,
    ?_, ?_, gateway_parseOptions_ok o h, fun kv hkv => gatewayOpts_keys hkv⟩
  · rw [gateway_body_lookup_opts _ _ _ _ (gatewayOpts_pairwise o) _
        (by decide) (by decide), gatewayOpts_lookup_max_tokens]
  · rw [gateway_body_lookup_opts _ _ _ _ (gatewayOpts_pairwise o) _
        (by decide) (by decide), gatewayOpts_lookup_top_k]
  · rw [gateway_body_lookup_opts _ _ _ _ (gatewayOpts_pairwise o) _
        (by decide) (by decide), gatewayOpts_lookup_top_p]
  · rw [gateway_body_lookup_opts _ _ _ _ (gatewayOpts_pairwise o) _
        (by decide) (by decide), gatewayOpts_lookup_temperature]
  · rw [gateway_body_lookup_opts _ _ _ _ (gatewayOpts_pairwise o) _
        (by decide) (by decide), gatewayOpts_lookup_seed]
  · rw [gateway_body_lookup_opts _ _ _ _ (gatewayOpts_pairwise o) _
        (by decide) (by decide), gatewayOpts_lookup_num_ctx]
  · rw [gateway_body_lookup_opts _ _ _ _ (gatewayOpts_pairwise o) _
        (by decide) (by decide), gatewayOpts_lookup_notin o _ (by decide)]
  · exact gateway_body_lookup_model _ _ _ _ (gatewayOpts_pairwise o)
      (gatewayOpts_lookup_notin o _ (by decide))

/-- Witness for C3: with only `top_k = 5` set, the body carries a flat
`top_k` and no `temperature` key. -/
theorem c3_gateway_flat_merge_witness :
    ∃ body, OpenWebUIClient.postBody
        { host := "h", bearer := "b", systemPrompt := "" }
        "hi" "m" (some { top_k := some (PyNum.int 5) }) = Except.ok body ∧
      lookupKey body "top_k" = some (PyVal.num (PyNum.int 5)) ∧
      lookupKey body "temperature" = none := by
  rcases c3_gateway_flat_merge { top_k := some (PyNum.int 5) } (by rfl)
      { host := "h", bearer := "b", systemPrompt := "" } "hi" "m" with
    ⟨body, hb, _, htk, _, htemp, _, _, _, _, _, _⟩
  exact ⟨body, hb, by rw [htk]; rfl, by rw [htemp]; rfl⟩

/-- Claim C4, counterexample: `seed = 0` is a valid (int) non-absent
field, yet the local-runner translation produces no "options"
sub-object at all, refuting "nests exactly the non-absent fields". -/
theorem c4_counterexample :
    ModelOptions.validate { seed := some (PyNum.int 0) } = Except.ok () ∧
    OllamaClient.parseOptions { seed := some (PyNum.int 0) } = Except.ok [] :=
  ⟨rfl, rfl⟩

/-- Claim C4 (amended): for every ModelOptions passing validation, the
local-runner translation nests exactly the truthy (non-absent and
non-zero) fields under an "options" sub-object, mapping max_tokens to
num_predict and context_window_size to num_ctx and keeping temperature,
top_p, seed, top_k under their own names; when every field is falsy the
"options" sub-object is omitted entirely; no option name appears at the
top level of the body. -/
theorem c4_ollama_nested (o : ModelOptions) (h : o.validate = Except.ok ())
    (c : OllamaClient) (message modelName : String) :
    ∃ body, c.postBody message modelName (some o) = Except.ok body ∧
      lookupKey body "options" =
        (if (ollamaNested o).isEmpty then none
         else some (PyVal.dict (ollamaNested o))) ∧
      ((ollamaNested o).isEmpty = true ↔
        (optTruthy o.max_tokens = false ∧ optTruthy o.temperature = false ∧
         optTruthy o.top_p = false ∧ optTruthy o.seed = false ∧
         optTruthy o.top_k = false ∧ optTruthy o.context_window_size = false)) ∧
      lookupKey (ollamaNested o) "num_predict" = truthyVal o.max_tokens ∧
      lookupKey (ollamaNested o) "temperature" = truthyVal o.temperature ∧
      lookupKey (ollamaNested o) "top_p" = truthyVal o.top_p ∧
      lookupKey (ollamaNested o) "seed" = truthyVal o.seed ∧
      lookupKey (ollamaNested o) "top_k" = truthyVal o.top_k ∧
      lookupKey (ollamaNested o) "num_ctx" = truthyVal o.context_window_size ∧
      (∀ kv ∈ ollamaNested o, kv.1 ∈
        (["num_predict", "temperature", "top_p", "seed", "top_k", "num_ctx"] :
          List String)) ∧
      lookupKey body "num_predict" = none ∧
      lookupKey body "max_tokens" = none ∧
      lookupKey body "model" = some (PyVal.str modelName) ∧
      lookupKey body "stream" = some (PyVal.boolean false) := by
  have hpw : (if (ollamaNested o).isEmpty then []
      else [("options", PyVal.dict (ollamaNested o))]).Pairwise
        (fun a b : String × PyVal => a.1 ≠ b.1) := by
    split <;> simp
  refine ⟨_, ollama_postBody_ok c message modelName o h, ?_,
    ollamaNested_isEmpty_iff o,
    ollamaNested_lookup_num_predict o, ollamaNested_lookup_temperature o,
    ollamaNested_lookup_top_p o, ollamaNested_lookup_seed o,
    ollamaNested_lookup_top_k o, ollamaNested_lookup_num_ctx o,
    fun kv hkv => ollamaNested_keys hkv, ?_, ?_, ?_, ?_⟩
  · rw [ollama_body_lookup_opts _ _ _ _ hpw _ (by decide) (by decide) (by decide)]
    split <;> simp [lookupKey_cons, lookupKey_nil]
  · rw [ollama_body_lookup_opts _ _ _ _ hpw _ (by decide) (by decide) (by decide)]
    split <;> simp [lookupKey_cons, lookupKey_nil]
  · rw [ollama_body_lookup_opts _ _ _ _ hpw _ (by decide) (by decide) (by decide)]
    split <;> simp [lookupKey_cons, lookupKey_nil]
  · refine ollama_body_lookup_model _ _ _ _ hpw ?_
    split <;> simp [lookupKey_cons, lookupKey_nil]
  · refine ollama_body_lookup_stream _ _ _ _ hpw ?_
    split <;> simp [lookupKey_cons, lookupKey_nil]

/-- Witness for C4: with only `seed = 7` set, the body nests
`{"options": {"seed": 7}}` and carries no top-level option keys. -/
theorem c4_ollama_nested_witness :
    ∃ body, OllamaClient.postBody { host := "h", systemPrompt := "" }
        "hi" "m" (some { seed := some (PyNum.int 7) }) = Except.ok body ∧
      lookupKey body "options" =
        some (PyVal.dict [("seed", PyVal.num (PyNum.int 7))]) ∧
      lookupKey body "max_tokens" = none := by
  rcases c4_ollama_nested { seed := some (PyNum.int 7) } (by rfl)
      { host := "h", systemPrompt := "" } "hi" "m" with
    ⟨body, hb, hopt, _, _, _, _, _, _, _, _, _, hmt, _, _⟩
  refine ⟨body, hb, ?_, hmt⟩
  rw [hopt]
  rfl

/-- Claim C5: setting an empty system prompt on a fresh instance of
either variant is a no-op, and subsequent request message lists carry no
system-role entry; setting a non-empty prompt causes every subsequent
request — across any further sequence of `set_system_prompt` calls
(empty ones being no-ops) — to carry exactly one system-role message as
the first element, ahead of the user message. -/
theorem c5_system_prompt (host bearer ohost message modelName : String)
    (options : Option ModelOptions) (p : String) (hp : p ≠ "")
    (later : List String) :
    (OpenWebUIClient.set_system_prompt ⟨host, bearer, ""⟩ "" = ⟨host, bearer, ""⟩) ∧
    (OllamaClient.set_system_prompt ⟨ohost, ""⟩ "" = ⟨ohost, ""⟩) ∧
    (∀ body, OpenWebUIClient.postBody ⟨host, bearer, ""⟩ message modelName options =
        Except.ok body →
      lookupKey body "messages" = some (PyVal.list [userMessage message]) ∧
      List.countP isSystemMessage [userMessage message] = 0) ∧
    (∀ body, OllamaClient.postBody ⟨ohost, ""⟩ message modelName options =
        Except.ok body →
      lookupKey body "messages" = some (PyVal.list [userMessage message])) ∧
    (∀ body, OpenWebUIClient.postBody
        (later.foldl OpenWebUIClient.set_system_prompt
          (OpenWebUIClient.set_system_prompt ⟨host, bearer, ""⟩ p))
        message modelName options = Except.ok body →
      ∃ sys : String, sys ≠ "" ∧
        lookupKey body "messages" = some (PyVal.list
          [PyVal.dict [("role", PyVal.str "system"), ("content", PyVal.str sys)],
           userMessage message]) ∧
        List.countP isSystemMessage
          [PyVal.dict [("role", PyVal.str "system"), ("content", PyVal.str sys)],
           userMessage message] = 1) ∧
    (∀ body, OllamaClient.postBody
        (later.foldl OllamaClient.set_system_prompt
          (OllamaClient.set_system_prompt ⟨ohost, ""⟩ p))
        message modelName options = Except.ok body →
      ∃ sys : String, sys ≠ "" ∧
        lookupKey body "messages" = some (PyVal.list
          [PyVal.dict [("role", PyVal.str "system"), ("content", PyVal.str sys)],
           userMessage message])) := by
  refine ⟨by simp [OpenWebUIClient.set_system_prompt],
          by simp [OllamaClient.set_system_prompt], ?_, ?_, ?_, ?_⟩
  · intro body hb
    have hm := gateway_postBody_messages _ _ _ _ _ hb
    rw [if_neg (by simp)] at hm
    exact ⟨hm, rfl⟩
  · intro body hb
    have hm := ollama_postBody_messages _ _ _ _ _ hb
    rw [if_neg (by simp)] at hm
    exact hm
  · intro body hb
    have hsys : (later.foldl OpenWebUIClient.set_system_prompt
        (OpenWebUIClient.set_system_prompt ⟨host, bearer, ""⟩ p)).systemPrompt ≠ "" := by
      apply gateway_foldl_set_ne
      unfold OpenWebUIClient.set_system_prompt
      rw [if_pos hp]
      exact hp
    have hm := gateway_postBody_messages _ _ _ _ _ hb
    rw [if_pos hsys] at hm
    have hgen : generateSystemMessage
        (later.foldl OpenWebUIClient.set_system_prompt
          (OpenWebUIClient.set_system_prompt ⟨host, bearer, ""⟩ p)).systemPrompt =
        PyVal.dict [("role", PyVal.str "system"),
          ("content", PyVal.str (later.foldl OpenWebUIClient.set_system_prompt
            (OpenWebUIClient.set_system_prompt ⟨host, bearer, ""⟩ p)).systemPrompt)] := by
      unfold generateSystemMessage
      rw [if_pos hsys]
    rw [hgen] at hm
    exact ⟨_, hsys, hm, rfl⟩
  · intro body hb
    have hsys : (later.foldl OllamaClient.set_system_prompt
        (OllamaClient.set_system_prompt ⟨ohost, ""⟩ p)).systemPrompt ≠ "" := by
      apply ollama_foldl_set_ne
      unfold OllamaClient.set_system_prompt
      rw [if_pos hp]
      exact hp
    have hm := ollama_postBody_messages _ _ _ _ _ hb
    rw [if_pos hsys] at hm
    have hgen : generateSystemMessage
        (later.foldl OllamaClient.set_system_prompt
          (OllamaClient.set_system_prompt ⟨ohost, ""⟩ p)).systemPrompt =
        PyVal.dict [("role", PyVal.str "system"),
          ("content", PyVal.str (later.foldl OllamaClient.set_system_prompt
            (OllamaClient.set_system_prompt ⟨ohost, ""⟩ p)).systemPrompt)] := by
      unfold generateSystemMessage
      rw [if_pos hsys]
    rw [hgen] at hm
    exact ⟨_, hsys, hm⟩

/-- Witness for C5: after setting "SYS" and then calling with an empty
prompt (no-op) and "next", the gateway body opens its messages with the
single system message carrying "next". -/
theorem c5_system_prompt_witness :
    ∃ body, OpenWebUIClient.postBody
        ((["", "next"] : List String).foldl OpenWebUIClient.set_system_prompt
          (OpenWebUIClient.set_system_prompt ⟨"h", "b", ""⟩ "SYS"))
        "hi" "m" none = Except.ok body ∧
      lookupKey body "messages" = some (PyVal.list
        [PyVal.dict [("role", PyVal.str "system"), ("content", PyVal.str "next")],
         userMessage "hi"]) := by
  obtain ⟨_, _, _, _, h5, _⟩ :=
    c5_system_prompt "h" "b" "oh" "hi" "m" none "SYS" (by decide) ["", "next"]
  have hb : OpenWebUIClient.postBody
      ((["", "next"] : List String).foldl OpenWebUIClient.set_system_prompt
        (OpenWebUIClient.set_system_prompt ⟨"h", "b", ""⟩ "SYS"))
      "hi" "m" none =
      Except.ok (bodyWithSystem "next" (dictUpdate (gatewayBaseBody "hi" "m") [])) :=
    gateway_postBody_none _ "hi" "m"
  obtain ⟨sys, hsys, hm, _⟩ := h5 _ hb
  exact ⟨_, hb, rfl⟩

/-- Claim C6: when the preferred name exactly matches a listed model
(the first such match, as the loop breaks), bootstrap selects it
regardless of size and emits no warning; otherwise — whether no
preferred name was given (empty string) or a non-empty preference
matches no listed name — bootstrap selects a listed model of
numerically smallest parsed size, emitting the not-found warning
exactly when a non-empty preference was given and no warning when none
was; and on the concrete inventory 7B/13B/3B with no preference it
selects the 3B model with no warning. All parts assume every listed
size parses and is below the 9999999 sentinel the loop starts from. -/
theorem c6_bootstrap_selection (models : List AIModel) (preferredModel : String)
    (hparse : ∀ m ∈ models, ∃ q : ℚ, parseSize m = Except.ok q ∧ q < 9999999) :
    (∀ m, models.find? (fun x => preferredModel == x.name) = some m →
      bootstrapPick models preferredModel = Except.ok (some m, false)) ∧
    ((∀ m ∈ models, m.name ≠ preferredModel) → models ≠ [] →
      ∃ chosen, chosen ∈ models ∧
        (∀ m ∈ models, ∀ qc qm : ℚ, parseSize chosen = Except.ok qc →
          parseSize m = Except.ok qm → qc ≤ qm) ∧
        (preferredModel = "" →
          bootstrapPick models preferredModel = Except.ok (some chosen, false)) ∧
        (preferredModel ≠ "" →
          bootstrapPick models preferredModel = Except.ok (some chosen, true))) ∧
    bootstrapPick [⟨"m7", "7B"⟩, ⟨"m13", "13B"⟩, ⟨"m3", "3B"⟩] "" =
      Except.ok (some ⟨"m3", "3B"⟩, false) := by
  obtain ⟨res, hres⟩ := getSmallestAux_ok models 9999999 none
    (fun m hm => (hparse m hm).imp (fun q hq => hq.1))
  have hsm : getSmallestModel models = Except.ok res := hres
  refine ⟨?_, ?_, ?_⟩
  · intro m hfind
    unfold bootstrapPick
    rw [hsm]
    simp [Bind.bind, Except.bind, hfind, Pure.pure, Except.pure]
  · intro hnames hne
    have hfind : models.find? (fun x => preferredModel == x.name) = none := by
      rw [List.find?_eq_none]
      intro x hx
      simp only [beq_iff_eq, Bool.not_eq_true]
      exact fun h => hnames x hx h.symm
    obtain ⟨hmem, hmin⟩ := getSmallestAux_spec models 9999999 none res hres
    rcases models with _ | ⟨m0, rest⟩
    · exact absurd rfl hne
    obtain ⟨q0, hq0, hlt0⟩ := hparse m0 (by simp)
    obtain ⟨c, qc0, hresc, hqc0, _⟩ := hmin m0 (by simp) q0 hq0 hlt0
    subst hresc
    refine ⟨c, ?_, ?_, ?_, ?_⟩
    · rcases hmem with hmem | ⟨c2, hc2, hc2eq, _⟩
      · cases hmem
      · obtain rfl := (Option.some.injEq _ _).mp hc2eq.symm
        exact hc2
    · intro m hm qc qm hqc hqm
      obtain ⟨q, hq, hqlt⟩ := hparse m hm
      have hqq : qm = q := by
        rw [hq] at hqm
        exact ((Except.ok.injEq _ _).mp hqm).symm
      subst hqq
      obtain ⟨c2, qc2, hc2eq, hqc2, hle⟩ := hmin m hm qm hq hqlt
      obtain rfl := (Option.some.injEq _ _).mp hc2eq
      have : qc = qc2 := by
        rw [hqc2] at hqc
        exact ((Except.ok.injEq _ _).mp hqc).symm
      rw [this]
      exact hle
    · intro hp
      subst hp
      unfold bootstrapPick
      rw [hsm]
      simp [Bind.bind, Except.bind, hfind, Pure.pure, Except.pure]
    · intro hp
      unfold bootstrapPick
      rw [hsm]
      simp [Bind.bind, Except.bind, hfind, hp, Pure.pure, Except.pure]
  · have h7 : parseSize ⟨"m7", "7B"⟩ = Except.ok 7 := by
      have h : parseSize ⟨"m7", "7B"⟩ = Except.ok ((7 : ℕ) : ℚ) := rfl
      rw [h]; norm_num
    have h13 : parseSize ⟨"m13", "13B"⟩ = Except.ok 13 := by
      have h : parseSize ⟨"m13", "13B"⟩ = Except.ok ((13 : ℕ) : ℚ) := rfl
      rw [h]; norm_num
    have h3 : parseSize ⟨"m3", "3B"⟩ = Except.ok 3 := by
      have h : parseSize ⟨"m3", "3B"⟩ = Except.ok ((3 : ℕ) : ℚ) := rfl
      rw [h]; norm_num
    have hsm3 : getSmallestModel [⟨"m7", "7B"⟩, ⟨"m13", "13B"⟩, ⟨"m3", "3B"⟩] =
        Except.ok (some ⟨"m3", "3B"⟩) := by
      unfold getSmallestModel
      rw [getSmallestAux_cons _ _ _ _ _ h7, if_pos (by norm_num),
          getSmallestAux_cons _ _ _ _ _ h13, if_neg (by norm_num),
          getSmallestAux_cons _ _ _ _ _ h3, if_pos (by norm_num)]
      rfl
    unfold bootstrapPick
    rw [hsm3]
    rfl

/-- Witness for C6: the concrete 7B/13B/3B no-preference selection, and
the unmatched non-empty preference "phi" falling back to a listed model
with the not-found warning emitted. -/
theorem c6_bootstrap_selection_witness :
    (bootstrapPick [⟨"m7", "7B"⟩, ⟨"m13", "13B"⟩, ⟨"m3", "3B"⟩] "" =
      Except.ok (some ⟨"m3", "3B"⟩, false)) ∧
    ∃ chosen, chosen ∈ [(⟨"m7", "7B"⟩ : AIModel), ⟨"m13", "13B"⟩, ⟨"m3", "3B"⟩] ∧
      bootstrapPick [⟨"m7", "7B"⟩, ⟨"m13", "13B"⟩, ⟨"m3", "3B"⟩] "phi" =
        Except.ok (some chosen, true) := by
  have hparse : ∀ m ∈ [(⟨"m7", "7B"⟩ : AIModel), ⟨"m13", "13B"⟩, ⟨"m3", "3B"⟩],
      ∃ q : ℚ, parseSize m = Except.ok q ∧ q < 9999999 := by
    intro m hm
    simp only [List.mem_cons, List.not_mem_nil, or_false] at hm
    rcases hm with rfl | rfl | rfl
    · exact ⟨7, by
        rw [show parseSize ⟨"m7", "7B"⟩ = Except.ok ((7 : ℕ) : ℚ) from rfl]
        norm_num, by norm_num⟩
    · exact ⟨13, by
        rw [show parseSize ⟨"m13", "13B"⟩ = Except.ok ((13 : ℕ) : ℚ) from rfl]
        norm_num, by norm_num⟩
    · exact ⟨3, by
        rw [show parseSize ⟨"m3", "3B"⟩ = Except.ok ((3 : ℕ) : ℚ) from rfl]
        norm_num, by norm_num⟩
  refine ⟨(c6_bootstrap_selection
    [⟨"m7", "7B"⟩, ⟨"m13", "13B"⟩, ⟨"m3", "3B"⟩] "" hparse).2.2, ?_⟩
  obtain ⟨chosen, hcmem, _, _, hwarn⟩ :=
    (c6_bootstrap_selection
      [⟨"m7", "7B"⟩, ⟨"m13", "13B"⟩, ⟨"m3", "3B"⟩] "phi" hparse).2.1
      (by
        intro m hm
        simp only [List.mem_cons, List.not_mem_nil, or_false] at hm
        rcases hm with rfl | rfl | rfl <;> decide)
      (by simp)
  exact ⟨chosen, hcmem, hwarn (by decide)⟩

/-- Claim C1, counterexample: the local-runner variant raises (KeyError
propagates) when the network-successful response lacks the content key,
instead of returning the (-1, description) pair the claim promises for
every variant — its `chat_completion` has no try/except. -/
theorem c1_counterexample :
    OllamaClient.chat_completion ⟨"h", ""⟩ "hi" ⟨"m", "3B"⟩ none 0 0 0
      (Except.ok (PyVal.dict [("message", PyVal.dict [])]))
      = Except.error (PyError.keyError "content") := rfl

/-- Claim C1 (amended): only the gateway variant downgrades a malformed
first-choice shape to the sentinel pair (-1, exception description)
without raising; the local-runner variant propagates the content
extraction failure; for both variants a network/status failure still
raises. -/
theorem c1_lenient_parsing (c : OpenWebUIClient) (oc : OllamaClient)
    (message : String) (model : AIModel) (t0 dParse dNet : ℚ)
    (choice : PyVal) (rest : List PyVal) (e : PyError)
    (hmal : extractChoiceContent choice = Except.error e)
    (netErr : PyError) (inner : PyVal) (e2 : PyError)
    (hinner : pyGetItem inner "content" = Except.error e2) :
    (c.chat_completion message model none t0 dParse dNet
        (Except.ok (PyVal.dict [("choices", PyVal.list (choice :: rest))]))
      = Except.ok (some (-1, PyVal.str (pyErrStr e)))) ∧
    (c.chat_completion message model none t0 dParse dNet (Except.error netErr)
      = Except.error netErr) ∧
    (oc.chat_completion message model none t0 dParse dNet (Except.error netErr)
      = Except.error netErr) ∧
    (oc.chat_completion message model none t0 dParse dNet
        (Except.ok (PyVal.dict [("message", inner)]))
      = Except.error e2) := by
  refine ⟨?_, ?_, ?_, ?_⟩
  · rw [gateway_chat_completion_eq c message model none t0 dParse dNet _ _
        (gateway_postBody_none c message model.name)]
    have hch : pyGetItem (PyVal.dict [("choices", PyVal.list (choice :: rest))])
        "choices" = Except.ok (PyVal.list (choice :: rest)) := rfl
    simp [hch, hmal]
  · rw [gateway_chat_completion_eq c message model none t0 dParse dNet _ _
        (gateway_postBody_none c message model.name)]
  · rw [ollama_chat_completion_eq oc message model none t0 dParse dNet _ _
        (ollama_postBody_none oc message model.name)]
    rfl
  · rw [ollama_chat_completion_eq oc message model none t0 dParse dNet _ _
        (ollama_postBody_none oc message model.name), exceptBind_ok]
    have hg : pyGetItem (PyVal.dict [("message", inner)]) "message" =
        Except.ok inner := rfl
    rw [hg, exceptBind_ok, hinner, exceptBind_error]

/-- Witness for C1: a first choice lacking the content key yields the
gateway sentinel, while the same malformed message shape makes the
local-runner call raise. -/
theorem c1_lenient_parsing_witness :
    (OpenWebUIClient.chat_completion ⟨"h", "b", ""⟩ "hi" ⟨"m", "3B"⟩ none 0 0 0
        (Except.ok (PyVal.dict [("choices",
          PyVal.list [PyVal.dict [("message", PyVal.dict [])]])]))
      = Except.ok (some (-1, PyVal.str (pyErrStr (PyError.keyError "content"))))) ∧
    (OllamaClient.chat_completion ⟨"oh", ""⟩ "hi" ⟨"m", "3B"⟩ none 0 0 0
        (Except.ok (PyVal.dict [("message", PyVal.dict [])]))
      = Except.error (PyError.keyError "content")) := by
  obtain ⟨h1, _, _, h4⟩ := c1_lenient_parsing ⟨"h", "b", ""⟩ ⟨"oh", ""⟩ "hi"
    ⟨"m", "3B"⟩ 0 0 0 (PyVal.dict [("message", PyVal.dict [])]) []
    (PyError.keyError "content") rfl (PyError.typeError "net")
    (PyVal.dict []) (PyError.keyError "content") rfl
  exact ⟨h1, h4⟩

/-- Claim C7, counterexample: with 0.5 ms of network time the
local-runner variant returns the float 1/2 — denominator 2, so not an
integer number of milliseconds — and with 1 ms of option translation
plus 10 ms of network the gateway elapsed value is 11 ms, although the
network call alone spans 10 ms: the measurement window encloses the
whole `_chat` call, option parsing included. -/
theorem c7_counterexample :
    (OllamaClient.chat_completion ⟨"h", ""⟩ "hi" ⟨"m", "3B"⟩ none 0 0 (1/2000)
        (Except.ok (PyVal.dict [("message",
          PyVal.dict [("content", PyVal.str "ok")])]))
      = Except.ok (1/2, PyVal.str "ok")) ∧
    ((1 : ℚ)/2).den ≠ 1 ∧
    (OpenWebUIClient.chat_completion ⟨"h", "b", ""⟩ "hi" ⟨"m", "3B"⟩ none
        0 (1/1000) (1/100)
        (Except.ok (PyVal.dict [("choices", PyVal.list
          [PyVal.dict [("message", PyVal.dict [("content", PyVal.str "ok")])]])]))
      = Except.ok (some (11, PyVal.str "ok"))) ∧
    pyInt ((1/100 : ℚ) * 1000) = 10 := by
  refine ⟨?_, by norm_num, ?_, by norm_num [pyInt]⟩
  · rw [ollama_chat_completion_eq ⟨"h", ""⟩ "hi" ⟨"m", "3B"⟩ none 0 0 (1/2000) _ _
        (ollama_postBody_none ⟨"h", ""⟩ "hi" "m"), exceptBind_ok]
    have hg : pyGetItem (PyVal.dict [("message",
        PyVal.dict [("content", PyVal.str "ok")])]) "message" =
        Except.ok (PyVal.dict [("content", PyVal.str "ok")]) := rfl
    rw [hg, exceptBind_ok]
    have hc : pyGetItem (PyVal.dict [("content", PyVal.str "ok")]) "content" =
        Except.ok (PyVal.str "ok") := rfl
    rw [hc, exceptBind_ok]
    norm_num
  · rw [gateway_chat_completion_eq ⟨"h", "b", ""⟩ "hi" ⟨"m", "3B"⟩ none
        0 (1/1000) (1/100) _ _ (gateway_postBody_none ⟨"h", "b", ""⟩ "hi" "m")]
    have hch : pyGetItem (PyVal.dict [("choices", PyVal.list
        [PyVal.dict [("message", PyVal.dict [("content", PyVal.str "ok")])]])])
        "choices" = Except.ok (PyVal.list
          [PyVal.dict [("message", PyVal.dict [("content", PyVal.str "ok")])]]) := rfl
    have hext : extractChoiceContent
        (PyVal.dict [("message", PyVal.dict [("content", PyVal.str "ok")])]) =
        Except.ok (PyVal.str "ok") := rfl
    simp only [hch, hext]
    norm_num [pyInt]

/-- Claim C7 (amended): on a well-formed response each variant returns
the reply content paired with the elapsed time of the whole internal
`_chat` call — option translation plus network, `dParse + dNet` — not of
the network call alone; the gateway variant truncates the float of
milliseconds to an int while the local-runner variant returns the raw
(possibly fractional) float; both are non-negative under a monotone
clock. -/
theorem c7_elapsed (c : OpenWebUIClient) (oc : OllamaClient) (message : String)
    (model : AIModel) (t0 dParse dNet : ℚ)
    (h1 : 0 ≤ dParse) (h2 : 0 ≤ dNet) (content : PyVal) :
    (c.chat_completion message model none t0 dParse dNet
        (Except.ok (PyVal.dict [("choices", PyVal.list
          [PyVal.dict [("message", PyVal.dict [("content", content)])]])]))
      = Except.ok (some (pyInt ((dParse + dNet) * 1000), content))) ∧
    0 ≤ pyInt ((dParse + dNet) * 1000) ∧
    (oc.chat_completion message model none t0 dParse dNet
        (Except.ok (PyVal.dict [("message", PyVal.dict [("content", content)])]))
      = Except.ok ((dParse + dNet) * 1000, content)) ∧
    0 ≤ (dParse + dNet) * 1000 := by
  have ht : (t0 + dParse + dNet) - t0 = dParse + dNet := by ring
  have hnn : (0 : ℚ) ≤ (dParse + dNet) * 1000 := by positivity
  refine ⟨?_, ?_, ?_, hnn⟩
  · rw [gateway_chat_completion_eq c message model none t0 dParse dNet _ _
        (gateway_postBody_none c message model.name)]
    have hch : pyGetItem (PyVal.dict [("choices", PyVal.list
        [PyVal.dict [("message", PyVal.dict [("content", content)])]])])
        "choices" = Except.ok (PyVal.list
          [PyVal.dict [("message", PyVal.dict [("content", content)])]]) := rfl
    have hext : extractChoiceContent
        (PyVal.dict [("message", PyVal.dict [("content", content)])]) =
        Except.ok content := rfl
    simp only [hch, hext, ht]
  · unfold pyInt
    refine Int.tdiv_nonneg (Rat.num_nonneg.mpr hnn) (by positivity)
  · rw [ollama_chat_completion_eq oc message model none t0 dParse dNet _ _
        (ollama_postBody_none oc message model.name), exceptBind_ok]
    have hg : pyGetItem (PyVal.dict [("message",
        PyVal.dict [("content", content)])]) "message" =
        Except.ok (PyVal.dict [("content", content)]) := rfl
    have hc : pyGetItem (PyVal.dict [("content", content)]) "content" =
        Except.ok content := rfl
    rw [hg, exceptBind_ok, hc, exceptBind_ok, ht]

/-- Witness for C7: with 1 ms of parsing and 10 ms of network the
gateway variant reports 11 elapsed ms. -/
theorem c7_elapsed_witness :
    OpenWebUIClient.chat_completion ⟨"h", "b", ""⟩ "hi" ⟨"m", "3B"⟩ none
        5 (1/1000) (1/100)
        (Except.ok (PyVal.dict [("choices", PyVal.list
          [PyVal.dict [("message", PyVal.dict [("content", PyVal.str "ok")])]])]))
      = Except.ok (some (11, PyVal.str "ok")) := by
  have h := (c7_elapsed ⟨"h", "b", ""⟩ ⟨"oh", ""⟩ "hi" ⟨"m", "3B"⟩ 5 (1/1000) (1/100)
    (by norm_num) (by norm_num) (PyVal.str "ok")).1
  rw [h]
  norm_num [pyInt]

/-- Claim C8: gateway model listing with two well-formed entries returns
two models in listing order, the name from the entry's own name field
and the size from the nested ollama.details.parameter_size path; and if
any entry of the data list fails the nested extraction, the whole call
fails with no partial list returned. -/
theorem c8_gateway_get_models (n1 p1 n2 p2 : String) :
    (OpenWebUIClient.get_models (PyVal.dict [("data",
        PyVal.list [mkGatewayEntry n1 p1, mkGatewayEntry n2 p2])])
      = Except.ok [⟨n1, p1⟩, ⟨n2, p2⟩]) ∧
    (∀ entries : List PyVal,
      (∃ x, x ∈ entries ∧ ∃ err, extractGatewayModel x = Except.error err) →
      ∃ err, OpenWebUIClient.get_models (PyVal.dict [("data", PyVal.list entries)])
        = Except.error err) := by
  constructor
  · have h2 : gatewayModelsFromEntries [mkGatewayEntry n2 p2] =
        Except.ok [⟨n2, p2⟩] :=
      gatewayModelsFromEntries_cons_ok _ _ _ _ rfl rfl
    have h1 : gatewayModelsFromEntries
        [mkGatewayEntry n1 p1, mkGatewayEntry n2 p2] =
        Except.ok [⟨n1, p1⟩, ⟨n2, p2⟩] :=
      gatewayModelsFromEntries_cons_ok _ _ _ _ rfl h2
    have hd : pyGetItem (PyVal.dict [("data",
        PyVal.list [mkGatewayEntry n1 p1, mkGatewayEntry n2 p2])]) "data" =
        Except.ok (PyVal.list [mkGatewayEntry n1 p1, mkGatewayEntry n2 p2]) := rfl
    simp [OpenWebUIClient.get_models, hd, h1, Bind.bind, Except.bind]
  · intro entries hbad
    obtain ⟨err, herr⟩ := gatewayModelsFromEntries_error entries hbad
    refine ⟨err, ?_⟩
    have hd : pyGetItem (PyVal.dict [("data", PyVal.list entries)]) "data" =
        Except.ok (PyVal.list entries) := rfl
    simp [OpenWebUIClient.get_models, hd, herr, Bind.bind, Except.bind]

/-- Witness for C8: a concrete two-entry listing parses in order, and a
listing whose second entry is an empty dict fails as a whole. -/
theorem c8_gateway_get_models_witness :
    (OpenWebUIClient.get_models (PyVal.dict [("data",
        PyVal.list [mkGatewayEntry "llava" "7B", mkGatewayEntry "code" "13B"])])
      = Except.ok [⟨"llava", "7B"⟩, ⟨"code", "13B"⟩]) ∧
    ∃ err, OpenWebUIClient.get_models (PyVal.dict [("data",
        PyVal.list [mkGatewayEntry "llava" "7B", PyVal.dict []])])
      = Except.error err :=
  ⟨(c8_gateway_get_models "llava" "7B" "code" "13B").1,
   (c8_gateway_get_models "x" "y" "z" "w").2
     [mkGatewayEntry "llava" "7B", PyVal.dict []]
     ⟨PyVal.dict [], by simp, PyError.keyError "name", rfl⟩⟩

/-- Claim C9: when the gateway chat response is well-formed but its
choices list is empty, `chat_completion` falls out of the loop and
returns Python None — modelled as `Except.ok none`, no (elapsed, reply)
pair and no sentinel — and when the choices key is missing entirely it
raises KeyError instead of returning the sentinel. -/
theorem c9_empty_choices (c : OpenWebUIClient) (message : String) (model : AIModel)
    (t0 dParse dNet : ℚ) (kvs : List (String × PyVal)) :
    (lookupKey kvs "choices" = some (PyVal.list []) →
      c.chat_completion message model none t0 dParse dNet
        (Except.ok (PyVal.dict kvs)) = Except.ok none) ∧
    (lookupKey kvs "choices" = none →
      c.chat_completion message model none t0 dParse dNet
        (Except.ok (PyVal.dict kvs)) =
        Except.error (PyError.keyError "choices")) := by
  constructor
  · intro h
    rw [gateway_chat_completion_eq c message model none t0 dParse dNet _ _
        (gateway_postBody_none c message model.name)]
    have hch : pyGetItem (PyVal.dict kvs) "choices" =
        Except.ok (PyVal.list []) := by
      simp [pyGetItem, h]
    simp [hch]
  · intro h
    rw [gateway_chat_completion_eq c message model none t0 dParse dNet _ _
        (gateway_postBody_none c message model.name)]
    have hch : pyGetItem (PyVal.dict kvs) "choices" =
        Except.error (PyError.keyError "choices") := by
      simp [pyGetItem, h]
    simp [hch]

/-- Witness for C9: empty choices yield `ok none` (Python None), a
missing choices key raises. -/
theorem c9_empty_choices_witness :
    (OpenWebUIClient.chat_completion ⟨"h", "b", ""⟩ "hi" ⟨"m", "3B"⟩ none 0 0 0
      (Except.ok (PyVal.dict [("choices", PyVal.list [])])) = Except.ok none) ∧
    (OpenWebUIClient.chat_completion ⟨"h", "b", ""⟩ "hi" ⟨"m", "3B"⟩ none 0 0 0
      (Except.ok (PyVal.dict [])) = Except.error (PyError.keyError "choices")) :=
  ⟨(c9_empty_choices ⟨"h", "b", ""⟩ "hi" ⟨"m", "3B"⟩ 0 0 0
      [("choices", PyVal.list [])]).1 rfl,
   (c9_empty_choices ⟨"h", "b", ""⟩ "hi" ⟨"m", "3B"⟩ 0 0 0 []).2 rfl⟩

/-- Claim C10, counterexample: with an empty model inventory and a
non-empty (hence unmatched) preferred name, bootstrap does not return a
None model — it raises an AttributeError while the not-found warning
reads `.name` on the None fallback. -/
theorem c10_counterexample :
    bootstrapPick [] "llama" =
      Except.error (PyError.attributeError
        "NoneType object has no attribute name") := rfl

/-- Claim C10 (amended): with an empty inventory `_get_smallest_model`
returns None; bootstrap returns a None model rather than raising only
when no preferred name was given at all; with a non-empty preferred
name it raises an AttributeError while formatting the not-found
warning; and the fallback presupposes every listed parameter_size
parses as a numeral after stripping "B" from both ends, raising
otherwise. -/
theorem c10_empty_inventory (preferredModel : String) :
    getSmallestModel [] = Except.ok none ∧
    bootstrapPick [] "" = Except.ok (none, false) ∧
    (preferredModel ≠ "" → bootstrapPick [] preferredModel =
      Except.error (PyError.attributeError
        "NoneType object has no attribute name")) ∧
    (∀ models : List AIModel,
      (∃ m, m ∈ models ∧ parseDecimal (stripB m.parameter_size) = none) →
      ∃ e, getSmallestModel models = Except.error e) := by
  refine ⟨rfl, rfl, ?_, ?_⟩
  · intro hp
    unfold bootstrapPick
    rw [show getSmallestModel ([] : List AIModel) = Except.ok none from rfl]
    simp [Bind.bind, Except.bind, List.find?, hp]
  · intro models hbad
    exact getSmallestAux_error_of_bad models 9999999 none hbad

/-- Witness for C10: the raise at a concrete unmatched name, and the
parse failure on a non-numeric size string. -/
theorem c10_empty_inventory_witness :
    (bootstrapPick [] "phi" =
      Except.error (PyError.attributeError
        "NoneType object has no attribute name")) ∧
    ∃ e, getSmallestModel [⟨"x", "garbage"⟩] = Except.error e :=
  ⟨(c10_empty_inventory "phi").2.2.1 (by decide),
   (c10_empty_inventory "phi").2.2.2 [⟨"x", "garbage"⟩]
     ⟨⟨"x", "garbage"⟩, by simp, rfl⟩⟩

end PromptEng
